import Mathlib

/-!
Shallow embedding of the triage-ai decision core.

Sources embedded here:
* `src/unnamed/part_013` (ats.ts portion): `ATSCategory`, `RED_FLAG_INDICATORS`,
  `CLINICAL_DISCRIMINATORS`, `checkRedFlags`, `getMinimumCategoryFromFlags`,
  `enforceMinimumCategory`, plus the `ATSTriageEngine` portion: `buildRawInput`,
  `callLLM` fallback, `buildRecommendations`, `assess`.
* `src/packages/triage-engine/src/guardrails.ts`: `runKeywordDetection`,
  `runClinicalRules`, `escalateCategory`, `applySafetyEnvelope`,
  `GuardrailsEngine.preProcess` / `postProcess`.
* `src/apps/api/src/services/conversation-engine.ts`: `checkRedFlagKeywords`,
  `handleEmergencyTriage`, `performTriage`, `processMessage`, `startConversation`,
  together with the pieces of `conversation-store.ts` they call (the in-memory
  store; the store returns the very object it mutates, so `processMessage` sees
  its own `addMessage` reflected in `conversation.messages`).
* `src/unnamed/part_007` (medical-knowledge.ts): `ATS_GUIDELINES` (category,
  name, max wait) and `getMinimumATSFromSymptoms`.

Modelling conventions: JS numbers are `ℚ` (ages, vitals, severities, confidences)
or `Nat` (ATS category numbers in the conversation engine); JS `undefined` is
`Option`; JS truthiness on numbers/strings is made explicit (`0` and `""` are
falsy); every `new Date().toISOString()` is an explicit `String` parameter, so
wall-clock time is an input of the embedding.  The LLM provider is an oracle
input: conversational calls receive the already-parsed response (the parser
never throws and always yields such a record), and triage/assessment calls
receive `Option r` where `none` is the malformed/unparseable case, whose
fallback objects are translated literally from the source.  Network transport,
Supabase persistence, prompt-text builders and the timestamped audit entries of
`ATSTriageEngine.assess` itself (log strings around the layers, not the decision
data) are elided; no claim depends on them.
-/

namespace TriageAI

/-- The five ATS urgency categories (`ATSCategory` in ats.ts, `z.enum`). -/
inductive ATSCategory where
  | ATS1 | ATS2 | ATS3 | ATS4 | ATS5
deriving DecidableEq, Fintype

open ATSCategory

/-- `categoryOrder.indexOf c` for `categoryOrder = ['ATS1',...,'ATS5']`. -/
def catIdx : ATSCategory → Nat
  | ATS1 => 0
  | ATS2 => 1
  | ATS3 => 2
  | ATS4 => 3
  | ATS5 => 4

/-- `categoryOrder[i]` (callers only use indices `0..4`). -/
def catOfIdx : Nat → ATSCategory
  | 0 => ATS1
  | 1 => ATS2
  | 2 => ATS3
  | 3 => ATS4
  | _ => ATS5

/-- The `'ATS1'`..`'ATS5'` literals, for audit strings. -/
def catName : ATSCategory → String
  | ATS1 => "ATS1"
  | ATS2 => "ATS2"
  | ATS3 => "ATS3"
  | ATS4 => "ATS4"
  | ATS5 => "ATS5"

/-- `${category || 'none'}` on an optional category. -/
def catDisplay : Option ATSCategory → String
  | some c => catName c
  | none => "none"

/-! ## Substring matching (JS `String.prototype.includes` on lowercased text) -/

/-- Does `needle` occur as a prefix of `hay`? -/
def listStartsWith : List Char → List Char → Bool
  | _, [] => true
  | [], _ :: _ => false
  | h :: hs, n :: ns => h == n && listStartsWith hs ns

/-- Does `needle` occur as a contiguous sublist of `hay`?  (JS `includes`.) -/
def listContainsSub (hay needle : List Char) : Bool :=
  match hay with
  | [] => needle.isEmpty
  | _ :: t => listStartsWith hay needle || listContainsSub t needle

/-- `text.toLowerCase()` as a character list. -/
def lowerChars (s : String) : List Char := s.data.map Char.toLower

/-! ## Red-flag indicators (`RED_FLAG_INDICATORS` in ats.ts) -/

/-- One entry of `RED_FLAG_INDICATORS` (the `description` field is inert and
elided; `ageCondition` is the optional age predicate). -/
structure RedFlagIndicator where
  id : String
  name : String
  keywords : List String
  ageCondition : Option (Option ℚ → Bool) := none
  minCategory : ATSCategory
  action : String

def RED_FLAG_INDICATORS : List RedFlagIndicator := [
  { id := "cardiac_chest_pain", name := "Cardiac-type chest pain",
    keywords := ["chest pain", "chest tightness", "chest pressure", "crushing", "radiating to arm", "radiating to jaw"],
    minCategory := ATS2, action := "Immediate ECG and cardiac workup" },
  { id := "severe_dyspnea", name := "Severe respiratory distress",
    keywords := ["can't breathe", "hard to breathe", "gasping", "choking", "suffocating"],
    minCategory := ATS1, action := "Immediate airway assessment" },
  { id := "stroke_symptoms", name := "Possible stroke (FAST)",
    keywords := ["face drooping", "arm weakness", "slurred speech", "can't speak", "one side", "sudden weakness", "sudden numbness"],
    minCategory := ATS2, action := "Stroke protocol - CT within 25 minutes" },
  { id := "thunderclap_headache", name := "Thunderclap headache",
    keywords := ["worst headache", "thunderclap", "sudden severe headache"],
    minCategory := ATS2, action := "Rule out subarachnoid haemorrhage" },
  { id := "altered_consciousness", name := "Altered consciousness",
    keywords := ["confused", "disoriented", "don't know where", "altered mental", "not making sense"],
    minCategory := ATS2, action := "Neurological assessment and workup" },
  { id := "loss_of_consciousness", name := "Loss of consciousness",
    keywords := ["passed out", "fainted", "blacked out", "lost consciousness", "collapsed"],
    minCategory := ATS2, action := "Cardiac and neurological workup" },
  { id := "anaphylaxis", name := "Possible anaphylaxis",
    keywords := ["can't swallow", "throat closing", "throat swelling", "tongue swelling", "severe allergic"],
    minCategory := ATS1, action := "Adrenaline and resuscitation standby" },
  { id := "severe_bleeding", name := "Severe bleeding",
    keywords := ["heavy bleeding", "won't stop bleeding", "blood everywhere", "bleeding out"],
    minCategory := ATS2, action := "Haemorrhage control and fluid resuscitation" },
  { id := "suicidal_ideation", name := "Suicidal ideation or self-harm",
    keywords := ["want to die", "kill myself", "suicide", "self harm", "end my life"],
    minCategory := ATS2, action := "Mental health crisis intervention, ensure safety" },
  { id := "paediatric_fever", name := "Paediatric fever with red flags",
    keywords := ["fever", "high temperature"],
    ageCondition := some (fun age => match age with
      | some a => decide (a < 3)
      | none => false),
    minCategory := ATS3, action := "Paediatric assessment, consider sepsis workup" }
]

/-- The record pushed by `checkRedFlags` for each firing indicator. -/
structure DetectedFlag where
  id : String
  name : String
  evidence : String
  action : String
  minCategory : ATSCategory
deriving DecidableEq

/-- `if (flag.ageCondition && !flag.ageCondition(age)) continue;` -/
def agePass (flag : RedFlagIndicator) (age : Option ℚ) : Bool :=
  match flag.ageCondition with
  | some cond => cond age
  | none => true

/-- The `for (const flag of RED_FLAG_INDICATORS)` loop of `checkRedFlags`,
made recursive on the indicator list.  The inner keyword loop `break`s after
the first matching keyword, which is `List.find?`. -/
def checkRedFlagsOn (inds : List RedFlagIndicator) (lowerText : List Char)
    (age : Option ℚ) : List DetectedFlag :=
  match inds with
  | [] => []
  | flag :: rest =>
    if agePass flag age then
      match flag.keywords.find? (fun kw => listContainsSub lowerText (lowerChars kw)) with
      | some kw =>
        { id := flag.id, name := flag.name, evidence := kw, action := flag.action,
          minCategory := flag.minCategory } :: checkRedFlagsOn rest lowerText age
      | none => checkRedFlagsOn rest lowerText age
    else checkRedFlagsOn rest lowerText age

/-- `checkRedFlags(text, age?)` of ats.ts. -/
def checkRedFlags (text : String) (age : Option ℚ) : List DetectedFlag :=
  checkRedFlagsOn RED_FLAG_INDICATORS (lowerChars text) age

/-- `getMinimumCategoryFromFlags` of ats.ts: most urgent `minCategory`
among the flags, `null` when there are none. -/
def getMinimumCategoryFromFlags (flags : List DetectedFlag) : Option ATSCategory :=
  match flags with
  | [] => none
  | _ =>
    let minIndex := flags.foldl
      (fun minIdx flag => if catIdx flag.minCategory < minIdx then catIdx flag.minCategory else minIdx) 5
    some (catOfIdx minIndex)

/-- `enforceMinimumCategory(llmCategory, redFlagCategory)` of ats.ts. -/
def enforceMinimumCategory (llmCategory : ATSCategory)
    (redFlagCategory : Option ATSCategory) : ATSCategory :=
  match redFlagCategory with
  | none => llmCategory
  | some rf => if catIdx llmCategory ≤ catIdx rf then llmCategory else rf

/-! ## Symptom presentation (`SymptomPresentationSchema` in ats.ts) -/

inductive Onset where
  | sudden | gradual
deriving DecidableEq

inductive Sex where
  | male | female | other
deriving DecidableEq

structure Symptom where
  description : String
  location : Option String := none
  duration : Option String := none
  severity : Option ℚ := none
  onset : Option Onset := none
  associated : Option (List String) := none
deriving DecidableEq

structure Demographics where
  age : Option ℚ := none
  sex : Option Sex := none
deriving DecidableEq

structure Vitals where
  heartRate : Option ℚ := none
  systolicBP : Option ℚ := none
  diastolicBP : Option ℚ := none
  temperature : Option ℚ := none
  respiratoryRate : Option ℚ := none
  spo2 : Option ℚ := none
deriving DecidableEq

structure SymptomPresentation where
  chiefComplaint : String
  symptoms : List Symptom := []
  demographics : Option Demographics := none
  vitals : Option Vitals := none
  medicalHistory : Option (List String) := none
  currentMedications : Option (List String) := none
  allergies : Option (List String) := none
deriving DecidableEq

/-! ## Clinical discriminators (`CLINICAL_DISCRIMINATORS` in ats.ts; the
`onset` sub-table is never read by `runClinicalRules` and is elided) -/

structure VitalsThresholds where
  criticalHypotension : ℚ
  moderateHypotension : ℚ
  criticalTachycardia : ℚ
  criticalBradycardia : ℚ
  criticalHypoxia : ℚ
  moderateHypoxia : ℚ
  highFever : ℚ
  criticalFever : ℚ

structure PainThresholds where
  severeMin : ℚ
  severeMax : ℚ
  moderateMin : ℚ
  moderateMax : ℚ
  mildMin : ℚ
  mildMax : ℚ

structure ClinicalDiscriminators where
  vitals : VitalsThresholds
  pain : PainThresholds

def CLINICAL_DISCRIMINATORS : ClinicalDiscriminators :=
  { vitals :=
      { criticalHypotension := 80, moderateHypotension := 90,
        criticalTachycardia := 150, criticalBradycardia := 40,
        criticalHypoxia := 90, moderateHypoxia := 94,
        highFever := 39, criticalFever := 40 },
    pain :=
      { severeMin := 8, severeMax := 10, moderateMin := 5, moderateMax := 7,
        mildMin := 1, mildMax := 4 } }

/-! ## Guardrails engine (guardrails.ts) -/

inductive AlertType where
  | vital_sign | age_risk | symptom_combination | time_critical
deriving DecidableEq

inductive AlertSeverity where
  | critical | warning | info
deriving DecidableEq

structure ClinicalAlert where
  type : AlertType
  message : String
  severity : AlertSeverity
deriving DecidableEq

inductive AuditLayer where
  | keyword | clinical | llm | safety
deriving DecidableEq

structure AuditEntry where
  layer : AuditLayer
  step : String
  result : String
  timestamp : String
deriving DecidableEq

inductive AdjustmentKind where
  | escalate | maintain
deriving DecidableEq

structure CategoryAdjustment where
  reason : String
  adjustment : AdjustmentKind
  fromCategory : Option ATSCategory := none
  toCategory : Option ATSCategory := none
deriving DecidableEq

/-- `escalateCategory(current, target)` of guardrails.ts: keep the more
urgent of the two, treating `null` as "no floor yet". -/
def escalateCategory (current : Option ATSCategory) (target : ATSCategory) : ATSCategory :=
  match current with
  | none => target
  | some c => if catIdx c ≤ catIdx target then c else target

/-- Running state of `runClinicalRules`: the `clinicalAlerts` accumulator and
the mutable `minimumCategory` variable. -/
abbrev RuleState := List ClinicalAlert × Option ATSCategory

/-- `clinicalAlerts.push(alert)` with no category change. -/
def addAlert (alert : ClinicalAlert) (st : RuleState) : RuleState :=
  (st.1 ++ [alert], st.2)

/-- `clinicalAlerts.push(alert); minimumCategory = escalateCategory(minimumCategory, target)`. -/
def addAlertEscalate (alert : ClinicalAlert) (target : ATSCategory) (st : RuleState) : RuleState :=
  (st.1 ++ [alert], some (escalateCategory st.2 target))

/-- Critical/moderate hypotension checks.  `vitals.systolicBP && ...` is JS
truthiness: a reading of `0` never fires either branch. -/
def bpCheck (v : Vitals) (st : RuleState) : RuleState :=
  match v.systolicBP with
  | none => st
  | some bp =>
    if bp ≠ 0 ∧ bp < CLINICAL_DISCRIMINATORS.vitals.criticalHypotension then
      addAlertEscalate
        { type := .vital_sign,
          message := "Critical hypotension: Systolic BP " ++ toString bp ++ "mmHg (< " ++
            toString CLINICAL_DISCRIMINATORS.vitals.criticalHypotension ++ ")",
          severity := .critical } ATS1 st
    else if bp ≠ 0 ∧ bp < CLINICAL_DISCRIMINATORS.vitals.moderateHypotension then
      addAlertEscalate
        { type := .vital_sign,
          message := "Hypotension: Systolic BP " ++ toString bp ++ "mmHg",
          severity := .warning } ATS2 st
    else st

/-- Critical/moderate hypoxia checks (same truthiness guard on `spo2`). -/
def spo2Check (v : Vitals) (st : RuleState) : RuleState :=
  match v.spo2 with
  | none => st
  | some s =>
    if s ≠ 0 ∧ s < CLINICAL_DISCRIMINATORS.vitals.criticalHypoxia then
      addAlertEscalate
        { type := .vital_sign,
          message := "Critical hypoxia: SpO2 " ++ toString s ++ "% (< " ++
            toString CLINICAL_DISCRIMINATORS.vitals.criticalHypoxia ++ "%)",
          severity := .critical } ATS1 st
    else if s ≠ 0 ∧ s < CLINICAL_DISCRIMINATORS.vitals.moderateHypoxia then
      addAlertEscalate
        { type := .vital_sign,
          message := "Low oxygen: SpO2 " ++ toString s ++ "%",
          severity := .warning } ATS2 st
    else st

/-- Critical tachycardia check. -/
def hrHighCheck (v : Vitals) (st : RuleState) : RuleState :=
  match v.heartRate with
  | none => st
  | some hr =>
    if hr ≠ 0 ∧ hr > CLINICAL_DISCRIMINATORS.vitals.criticalTachycardia then
      addAlertEscalate
        { type := .vital_sign,
          message := "Critical tachycardia: HR " ++ toString hr ++ "bpm",
          severity := .critical } ATS2 st
    else st

/-- Critical bradycardia check. -/
def hrLowCheck (v : Vitals) (st : RuleState) : RuleState :=
  match v.heartRate with
  | none => st
  | some hr =>
    if hr ≠ 0 ∧ hr < CLINICAL_DISCRIMINATORS.vitals.criticalBradycardia then
      addAlertEscalate
        { type := .vital_sign,
          message := "Critical bradycardia: HR " ++ toString hr ++ "bpm",
          severity := .critical } ATS2 st
    else st

/-- Critical/high fever checks; critical fever escalates to ATS2 for
children under 3 and to ATS3 otherwise. -/
def feverCheck (v : Vitals) (age : Option ℚ) (st : RuleState) : RuleState :=
  match v.temperature with
  | none => st
  | some t =>
    if t ≠ 0 ∧ t ≥ CLINICAL_DISCRIMINATORS.vitals.criticalFever then
      let ageAdjusted := match age with
        | some a => if a < 3 then ATS2 else ATS3
        | none => ATS3
      addAlertEscalate
        { type := .vital_sign,
          message := "Critical fever: " ++ toString t ++ "°C",
          severity := .critical } ageAdjusted st
    else if t ≠ 0 ∧ t ≥ CLINICAL_DISCRIMINATORS.vitals.highFever then
      addAlert
        { type := .vital_sign,
          message := "High fever: " ++ toString t ++ "°C",
          severity := .warning } st
    else st

/-- The `if (presentation.vitals)` block of `runClinicalRules`, in source order. -/
def checkVitals (v : Vitals) (age : Option ℚ) (st : RuleState) : RuleState :=
  feverCheck v age (hrLowCheck v (hrHighCheck v (spo2Check v (bpCheck v st))))

/-- `presentation.vitals?.temperature && temperature >= 38.0` for the
febrile-infant rule. -/
def infantFeverTemp (vitals : Option Vitals) : Bool :=
  match vitals with
  | some v =>
    match v.temperature with
    | some t => t != 0 && decide (t ≥ 38)
    | none => false
  | none => false

/-- The age-specific adjustments block of `runClinicalRules`. -/
def ageChecks (demographics : Option Demographics) (vitals : Option Vitals)
    (st : RuleState) : RuleState :=
  match demographics with
  | none => st
  | some d =>
    match d.age with
    | none => st
    | some a =>
      let st :=
        if a ≥ 65 then
          addAlert
            { type := .age_risk,
              message := "Patient is 65 or older - consider lower threshold for escalation",
              severity := .info } st
        else st
      let st :=
        if a ≤ 3 then
          addAlert
            { type := .age_risk,
              message := "Paediatric patient (≤3 years) - elevated risk for rapid deterioration",
              severity := .warning } st
        else st
      if a < 1 ∧ infantFeverTemp vitals = true then
        addAlertEscalate
          { type := .age_risk,
            message := "Febrile infant (<1 year) - requires urgent assessment",
            severity := .critical } ATS3 st
      else st

/-- The per-symptom body of the severity/onset loop of `runClinicalRules`.
`if (symptom.severity)` is JS truthiness: severity `0` skips the pain rule. -/
def symptomStep (st : RuleState) (s : Symptom) : RuleState :=
  let st :=
    match s.severity with
    | some sev =>
      if sev ≠ 0 ∧ sev ≥ CLINICAL_DISCRIMINATORS.pain.severeMin then
        addAlertEscalate
          { type := .symptom_combination,
            message := "Severe pain reported: " ++ toString sev ++ "/10 - " ++ s.description,
            severity := .warning } ATS3 st
      else st
    | none => st
  match s.onset with
  | some .sudden =>
    addAlert
      { type := .time_critical,
        message := "Sudden onset: " ++ s.description,
        severity := .info } st
  | _ => st

/-- The `for (const symptom of presentation.symptoms)` loop. -/
def symptomChecks (symptoms : List Symptom) (st : RuleState) : RuleState :=
  symptoms.foldl symptomStep st

structure ClinicalRulesResult where
  clinicalAlerts : List ClinicalAlert
  categoryAdjustments : List CategoryAdjustment
  minimumCategory : Option ATSCategory
  auditLog : List AuditEntry
deriving DecidableEq

/-- `runClinicalRules(presentation, currentMinCategory)` of guardrails.ts.
`ts1`/`ts2` are the two `new Date().toISOString()` reads (START / COMPLETE
audit entries).  The source declares `categoryAdjustments` but never pushes
to it, so it is always `[]`. -/
def runClinicalRules (p : SymptomPresentation) (currentMinCategory : Option ATSCategory)
    (ts1 ts2 : String) : ClinicalRulesResult :=
  let st0 : RuleState := ([], currentMinCategory)
  let st1 :=
    match p.vitals with
    | some v => checkVitals v (p.demographics.bind Demographics.age) st0
    | none => st0
  let st2 := ageChecks p.demographics p.vitals st1
  let st3 := symptomChecks p.symptoms st2
  let n := st3.1.length
  { clinicalAlerts := st3.1, categoryAdjustments := [], minimumCategory := st3.2,
    auditLog := [
      { layer := .clinical, step := "START",
        result := "Applying clinical discriminators", timestamp := ts1 },
      { layer := .clinical, step := "COMPLETE",
        result := toString n ++ " alerts generated. Minimum category: " ++ catDisplay st3.2,
        timestamp := ts2 }] }

structure KeywordResult where
  redFlagsDetected : List DetectedFlag
  minimumCategory : Option ATSCategory
  auditLog : List AuditEntry
deriving DecidableEq

/-- `runKeywordDetection(rawInput, age?)` of guardrails.ts. -/
def runKeywordDetection (rawInput : String) (age : Option ℚ) (ts1 ts2 : String) :
    KeywordResult :=
  let redFlags := checkRedFlags rawInput age
  let minimumCategory := getMinimumCategoryFromFlags redFlags
  { redFlagsDetected := redFlags, minimumCategory := minimumCategory,
    auditLog := [
      { layer := .keyword, step := "START",
        result := "Processing input: " ++ String.mk (rawInput.data.take 100) ++ "...",
        timestamp := ts1 },
      { layer := .keyword, step := "COMPLETE",
        result := "Detected " ++ toString redFlags.length ++ " red flags. Minimum category: " ++
          catDisplay minimumCategory,
        timestamp := ts2 }] }

structure GuardrailsResult where
  minimumCategory : Option ATSCategory
  redFlagsDetected : List DetectedFlag
  clinicalAlerts : List ClinicalAlert
  categoryAdjustments : List CategoryAdjustment
  auditLog : List AuditEntry
  requiresImmediateAttention : Bool
  escalationRequired : Bool
deriving DecidableEq

/-- `GuardrailsEngine.preProcess(rawInput, presentation)`; the four timestamp
arguments feed the keyword and clinical audit entries. -/
def preProcess (rawInput : String) (p : SymptomPresentation)
    (kts1 kts2 cts1 cts2 : String) : GuardrailsResult :=
  let keywordResult := runKeywordDetection rawInput (p.demographics.bind Demographics.age) kts1 kts2
  let clinicalResult := runClinicalRules p keywordResult.minimumCategory cts1 cts2
  let requiresImmediateAttention :=
    clinicalResult.minimumCategory == some ATS1 ||
    keywordResult.redFlagsDetected.any (fun f => f.minCategory == ATS1)
  let escalationRequired :=
    clinicalResult.minimumCategory == some ATS1 ||
    clinicalResult.minimumCategory == some ATS2 ||
    clinicalResult.clinicalAlerts.any (fun a => a.severity == AlertSeverity.critical)
  { minimumCategory := clinicalResult.minimumCategory,
    redFlagsDetected := keywordResult.redFlagsDetected,
    clinicalAlerts := clinicalResult.clinicalAlerts,
    categoryAdjustments := clinicalResult.categoryAdjustments,
    auditLog := keywordResult.auditLog ++ clinicalResult.auditLog,
    requiresImmediateAttention := requiresImmediateAttention,
    escalationRequired := escalationRequired }

structure SafetyEnvelopeResult where
  finalCategory : ATSCategory
  wasEscalated : Bool
  escalationReason : Option String
  auditLog : List AuditEntry
deriving DecidableEq

/-- JS template interpolation of a possibly-null string (`null` prints as
`"null"`). -/
def optStrDisplay : Option String → String
  | some s => s
  | none => "null"

/-- `applySafetyEnvelope(llmCategory, guardrailsMinimum, redFlagsDetected,
clinicalAlerts)` of guardrails.ts. -/
def applySafetyEnvelope (llmCategory : ATSCategory) (guardrailsMinimum : Option ATSCategory)
    (redFlagsDetected : List DetectedFlag) (clinicalAlerts : List ClinicalAlert)
    (ts1 ts2 : String) : SafetyEnvelopeResult :=
  let finalCategory := enforceMinimumCategory llmCategory guardrailsMinimum
  let wasEscalated : Bool := finalCategory != llmCategory
  let escalationReason : Option String :=
    if wasEscalated then
      if redFlagsDetected.length > 0 then
        some ("Red flags detected: " ++
          String.intercalate ", " (redFlagsDetected.map DetectedFlag.name))
      else if clinicalAlerts.any (fun a => a.severity == AlertSeverity.critical) then
        some ("Critical clinical alerts: " ++
          String.intercalate "; "
            ((clinicalAlerts.filter (fun a => a.severity == AlertSeverity.critical)).map
              ClinicalAlert.message))
      else none
    else none
  { finalCategory := finalCategory, wasEscalated := wasEscalated,
    escalationReason := escalationReason,
    auditLog := [
      { layer := .safety, step := "START",
        result := "LLM recommended: " ++ catName llmCategory ++ ", Guardrails minimum: " ++
          catDisplay guardrailsMinimum,
        timestamp := ts1 },
      { layer := .safety, step := "COMPLETE",
        result :=
          if wasEscalated then
            "ESCALATED from " ++ catName llmCategory ++ " to " ++ catName finalCategory ++
              ". Reason: " ++ optStrDisplay escalationReason
          else "Confirmed LLM recommendation: " ++ catName finalCategory,
        timestamp := ts2 }] }

/-- `GuardrailsEngine.postProcess(llmCategory, guardrailsResult)`. -/
def postProcess (llmCategory : ATSCategory) (g : GuardrailsResult) (ts1 ts2 : String) :
    SafetyEnvelopeResult :=
  applySafetyEnvelope llmCategory g.minimumCategory g.redFlagsDetected g.clinicalAlerts ts1 ts2

/-! ## ATS triage engine (`ATSTriageEngine` in part_013) -/

/-- Parsed shape of the LLM triage reply (`LLMTriageResponseSchema`). -/
structure LLMTriageResponse where
  category : ATSCategory
  confidence : ℚ
  clinicalReasoning : String
  discriminatorsUsed : List String
  recommendations : List String
  differentialConsiderations : Option (List String) := none
deriving DecidableEq

def onsetName : Onset → String
  | .sudden => "sudden"
  | .gradual => "gradual"

/-- One symptom line of `buildRawInput` (each `if (symptom.x)` is JS
truthiness, so empty strings and severity `0` are skipped). -/
def symptomRawPart (s : Symptom) : String :=
  let str := s.description
  let str :=
    match s.location with
    | some l => if l ≠ "" then str ++ " (" ++ l ++ ")" else str
    | none => str
  let str :=
    match s.duration with
    | some d => if d ≠ "" then str ++ " for " ++ d else str
    | none => str
  let str :=
    match s.severity with
    | some sev => if sev ≠ 0 then str ++ " - severity " ++ toString sev ++ "/10" else str
    | none => str
  match s.onset with
  | some o => str ++ " - " ++ onsetName o ++ " onset"
  | none => str

/-- `ATSTriageEngine.buildRawInput`. -/
def buildRawInput (p : SymptomPresentation) : String :=
  String.intercalate ". " (p.chiefComplaint :: p.symptoms.map symptomRawPart)

/-- The fallback object returned by `ATSTriageEngine.callLLM` when the LLM
call fails or its output cannot be parsed: `guardrailsResult.minimumCategory
|| 'ATS4'`, confidence `0.5`, fixed reasoning and recommendations. -/
def callLLMFallback (g : GuardrailsResult) : LLMTriageResponse :=
  { category := g.minimumCategory.getD ATS4,
    confidence := 1/2,
    clinicalReasoning := "LLM assessment unavailable. Category based on safety rules and clinical discriminators.",
    discriminatorsUsed := ["Fallback assessment"],
    recommendations := ["Proceed with clinical assessment", "Escalate if any deterioration"] }

/-- `ATSTriageEngine.callLLM`: the transport/parse pipeline is abstracted to
its outcome; `none` is the malformed/unparseable (or failed) case. -/
def callLLM (g : GuardrailsResult) (parsedOutcome : Option LLMTriageResponse) :
    LLMTriageResponse :=
  match parsedOutcome with
  | some r => r
  | none => callLLMFallback g

/-- The `switch (category)` of `ATSTriageEngine.buildRecommendations`. -/
def categoryBaseRecommendations : ATSCategory → List String
  | ATS1 => ["IMMEDIATE resuscitation team activation", "Continuous monitoring required"]
  | ATS2 => ["Urgent medical assessment within 10 minutes", "Prepare for potential escalation"]
  | ATS3 => ["Medical assessment within 30 minutes"]
  | ATS4 => ["Medical assessment within 60 minutes"]
  | ATS5 => ["Assessment when resources available (within 2 hours)"]

/-- The dedup push of an LLM recommendation: skipped when some already-present
recommendation contains the first 20 chars of its lowercasing. -/
def dedupAddRecommendation (acc : List String) (r : String) : List String :=
  if acc.any (fun existing => listContainsSub (lowerChars existing) ((lowerChars r).take 20)) then
    acc
  else acc ++ [r]

/-- `ATSTriageEngine.buildRecommendations`. -/
def buildRecommendations (category : ATSCategory) (llmRecommendations : List String)
    (g : GuardrailsResult) : List String :=
  let recommendations :=
    categoryBaseRecommendations category ++ g.redFlagsDetected.map DetectedFlag.action
  llmRecommendations.foldl dedupAddRecommendation recommendations

/-- The decision-relevant fields of the `ATSAssessment` built by `assess`
(`categoryInfo`, `discriminatorsUsed` and the timestamped `auditTrail` log
strings are presentation-only and elided; `redFlagsDetected` keeps the full
detected-flag records rather than the 4-field projection). -/
structure ATSAssessmentCore where
  category : ATSCategory
  confidence : ℚ
  redFlagsDetected : List DetectedFlag
  clinicalReasoning : String
  recommendations : List String
  escalationNotes : Option String
deriving DecidableEq

/-- `ATSTriageEngine.assess`: guardrails pre-processing on the raw input,
LLM call (with fallback), then the safety envelope.  `ts` stands in for every
`new Date().toISOString()` read. -/
def assess (p : SymptomPresentation) (llmOutcome : Option LLMTriageResponse)
    (ts : String) : ATSAssessmentCore :=
  let rawInput := buildRawInput p
  let guardrailsResult := preProcess rawInput p ts ts ts ts
  let llmResponse := callLLM guardrailsResult llmOutcome
  let safetyResult := postProcess llmResponse.category guardrailsResult ts ts
  let escalationNotes : Option String :=
    if safetyResult.wasEscalated then
      some ("Category escalated from " ++ catName llmResponse.category ++ " to " ++
        catName safetyResult.finalCategory ++ ". " ++ optStrDisplay safetyResult.escalationReason)
    else none
  { category := safetyResult.finalCategory,
    confidence := if safetyResult.wasEscalated then 95/100 else llmResponse.confidence,
    redFlagsDetected := guardrailsResult.redFlagsDetected,
    clinicalReasoning :=
      if safetyResult.wasEscalated then
        llmResponse.clinicalReasoning ++ "\n\n⚠️ ESCALATED: " ++
          optStrDisplay safetyResult.escalationReason
      else llmResponse.clinicalReasoning,
    recommendations :=
      buildRecommendations safetyResult.finalCategory llmResponse.recommendations guardrailsResult,
    escalationNotes := escalationNotes }

/-! ## Medical knowledge base (part_007, medical-knowledge.ts) -/

/-- One `ATS_GUIDELINES` entry (only the fields the conversation engine
reads: `atsCategory`, `name`, `maxWaitTime`). -/
structure TriageGuideline where
  atsCategory : Nat
  name : String
  maxWaitTime : String
deriving DecidableEq

def ATS_GUIDELINES : List TriageGuideline := [
  { atsCategory := 1, name := "Resuscitation", maxWaitTime := "Immediate" },
  { atsCategory := 2, name := "Emergency", maxWaitTime := "10 minutes" },
  { atsCategory := 3, name := "Urgent", maxWaitTime := "30 minutes" },
  { atsCategory := 4, name := "Semi-urgent", maxWaitTime := "60 minutes" },
  { atsCategory := 5, name := "Non-urgent", maxWaitTime := "120 minutes" }]

/-- `getMinimumATSFromSymptoms(symptoms)` of part_007: the body is a bare
`return 5;` (the comment in the source says red flags are handled by the
conversation engine's keyword detection and RAG matches must not escalate). -/
def getMinimumATSFromSymptoms (symptoms : String) : Nat := 5

/-! ## A tiny regex core for the conversation engine's keyword patterns

The 56 patterns in `ConversationEngine.checkRedFlagKeywords` use only literal
characters, alternation `|`, `.*`, `.?` and `\d+`.  `regexTest` implements
JS `RegExp.prototype.test` for exactly this fragment: the pattern matches at
some position of the text; `.` matches any character except line terminators. -/

inductive RAtom where
  | lit (c : Char)
  | anyOne
  | anyOpt
  | anyStar
  | digits
deriving DecidableEq

abbrev RSeq := List RAtom
abbrev RPat := List RSeq

/-- Compile one `|`-free alternative. -/
def compileAtoms : List Char → RSeq
  | [] => []
  | '\\' :: 'd' :: '+' :: rest => RAtom.digits :: compileAtoms rest
  | '.' :: '*' :: rest => RAtom.anyStar :: compileAtoms rest
  | '.' :: '?' :: rest => RAtom.anyOpt :: compileAtoms rest
  | '.' :: rest => RAtom.anyOne :: compileAtoms rest
  | c :: rest => RAtom.lit c :: compileAtoms rest

/-- Split a pattern source at each `|`. -/
def splitBar : List Char → List (List Char)
  | [] => [[]]
  | '|' :: rest => [] :: splitBar rest
  | c :: rest =>
    match splitBar rest with
    | [] => [[c]]
    | a :: as => (c :: a) :: as

/-- Compile a pattern source (alternation of alternatives). -/
def compileRegex (s : String) : RPat :=
  (splitBar s.data).map compileAtoms

/-- What JS `.` matches (dotAll off): anything but a line terminator. -/
def isJSDot (c : Char) : Bool :=
  !(c == '\n' || c == '\r' || c == Char.ofNat 0x2028 || c == Char.ofNat 0x2029)

/-- `.*` continuation: consume one or more dot-chars, then match `f`. -/
def starTail (f : List Char → Bool) : List Char → Bool
  | [] => false
  | c :: cs => isJSDot c && (f cs || starTail f cs)

/-- `\d+` : consume one or more digits, then match `f`. -/
def digTail (f : List Char → Bool) : List Char → Bool
  | [] => false
  | c :: cs => c.isDigit && (f cs || digTail f cs)

/-- Does the sequence match a prefix of the text? -/
def matchSeq : RSeq → List Char → Bool
  | [], _ => true
  | RAtom.lit c :: rest, xs =>
    match xs with
    | [] => false
    | x :: xs' => x == c && matchSeq rest xs'
  | RAtom.anyOne :: rest, xs =>
    match xs with
    | [] => false
    | x :: xs' => isJSDot x && matchSeq rest xs'
  | RAtom.anyOpt :: rest, xs =>
    matchSeq rest xs ||
      (match xs with
       | [] => false
       | x :: xs' => isJSDot x && matchSeq rest xs')
  | RAtom.anyStar :: rest, xs => matchSeq rest xs || starTail (fun ys => matchSeq rest ys) xs
  | RAtom.digits :: rest, xs => digTail (fun ys => matchSeq rest ys) xs

/-- Does the sequence match starting at some position of the text? -/
def seqSearch (seq : RSeq) : List Char → Bool
  | [] => matchSeq seq []
  | x :: xs => matchSeq seq (x :: xs) || seqSearch seq xs

/-- `pattern.test(text)`. -/
def regexTest (p : RPat) (text : List Char) : Bool :=
  p.any (fun seq => seqSearch seq text)

/-! ## Conversation engine (conversation-engine.ts) -/

/-- The `keywordPatterns` table of `ConversationEngine.checkRedFlagKeywords`:
pattern source and flag name, in source order. -/
def keywordPatterns : List (String × String) := [
  ("chest pain|chest tightness|chest pressure|crushing.*chest|radiating.*arm|pressure.*chest", "Chest pain"),
  ("no pulse|has no pulse|not beating|heart stopped", "Cardiac arrest"),
  ("can't breathe|cannot breathe|hard to breathe|shortness of breath|gasping|difficulty breathing|struggling to breathe", "Difficulty breathing"),
  ("not breathing|stopped breathing|barely breathing|lips.*blue|turning blue|cyanosis", "Respiratory arrest"),
  ("choking|airway.*blocked|throat.*closed", "Airway obstruction"),
  ("worst headache|thunderclap headache|sudden severe headache|never had headache this bad", "Sudden severe headache"),
  ("passed out|fainted|lost consciousness|blacked out|unresponsive|not responding|not moving", "Loss of consciousness"),
  ("face droop|face.*droop|arm weak|arm.*weak|slurred speech|can't speak|one side.*weak|stroke", "Possible stroke symptoms"),
  ("seizure|convulsing|fitting|having a fit", "Seizure"),
  ("can't swallow|throat closing|swelling.*throat|throat.*swelling|allergic.*breathing|throat is closing", "Possible anaphylaxis"),
  ("want to die|kill myself|suicide|self.?harm|ending my life|end my life|better off dead|hanging|hanged", "Suicidal ideation"),
  ("heavy bleeding|won't stop bleeding|blood everywhere|soaked.*blood|massive blood", "Severe bleeding"),
  ("car accident|car crash|major accident|serious accident|hit by|run over", "Major trauma"),
  ("burn.*all over|severe burn|large.*burn|house fire|on fire|explosion", "Severe burns"),
  ("electrocuted|electric shock|power lines|high voltage", "Electrocution"),
  ("drowning|pulled from.*water|swallowed water.*passed out|found in pool", "Near-drowning"),
  ("overdose|took too many|pills.*unconscious|needles.*passed out|drug.*unresponsive", "Drug overdose"),
  ("poison|poisoning|swallowed.*chemical|drank.*bleach", "Poisoning"),
  ("confused|don't know where|altered mental|acting strange|not making sense", "Altered mental status"),
  ("collapsed|found on floor|found unconscious", "Collapse"),
  ("vomiting.*blood|vomited blood|haematemesis|black.*tarry.*stool|melena", "GI bleeding"),
  ("stiff neck.*fever|fever.*stiff neck|rash.*doesn't fade|petechial", "Possible meningitis"),
  ("pregnant.*severe.*pain|pregnant.*bleeding|ectopic|one.?sided.*pain.*pregnant", "Obstetric emergency"),
  ("testicle.*pain|testicular.*pain|scrotum.*severe|sudden.*testicle", "Testicular emergency"),
  ("hives.*spreading|face.*swelling|lips.*swelling|angioed", "Allergic reaction"),
  ("baby.*fever|infant.*fever|newborn.*fever|6.*week.*fever", "Febrile infant"),
  ("sudden.*can.?t see|suddenly.*blind|vision.*loss|curtain.*over.*eye|curtain.*came down|lost.*vision|cannot see|can.?t see.*eye", "Acute vision loss"),
  ("belly.*hard.*board|abdomen.*rigid|peritonitis", "Acute abdomen"),
  ("just gave birth.*bleeding|post.?partum.*bleed|soaking.*pad", "Post-partum haemorrhage"),
  ("haven't.*urinated.*\\d+.*hour|can't.*urinate|urinary.*retention", "Urinary retention"),
  ("can.?t move.*toes|leg.*tight.*pain|compartment|limb.*swelling.*injury|leg.*severe.*pain.*toes", "Compartment syndrome"),
  ("surgery.*last week.*pain|post.?op.*pain|recent surgery", "Post-operative complication"),
  ("severe.*dehydration|extremely dehydrated|not urinating|haven.?t urinated|havent urinated|dark urine.*not eating|sunken.*eyes|can.?t keep.*down.*lips", "Severe dehydration"),
  ("asthma.*attack|asthma.*worse|wheezing|using.*inhaler|nebulizer|puffer", "Asthma exacerbation"),
  ("high fever|fever.*39|fever.*40|temperature.*39|temperature.*40|burning up", "High fever"),
  ("kidney stone|severe.*flank.*pain|excruciating.*back.*radiating|renal colic|colicky.*pain.*side.*groin|side.*radiating.*groin", "Kidney stone"),
  ("lower right.*pain|pain.*lower right|belly.*button.*lower right|appendicitis|appendix", "Possible appendicitis"),
  ("hit.*head.*vomit|head.*vomit|concussion.*vomit|fell.*head.*threw up|head.*threw up", "Head injury with vomiting"),
  ("broken.*bone|fracture|bone.*sticking out|deformed.*limb|snapped|dislocated|bent.*wrong way|arm.*bent", "Fracture or dislocation"),
  ("panic attack|heart racing.*dying|heart racing.*scared|can.?t calm down.*anxiety|hyperventilating|overwhelming fear|can.?t catch.*breath.*racing", "Panic attack"),
  ("severe migraine|migraine.*vomiting|worst migraine|blinding headache", "Severe migraine"),
  ("diabetic.*foot.*infection|diabetic.*wound|foot ulcer.*diabetic|infected.*foot.*diabetes", "Diabetic foot infection"),
  ("vomiting.*diarrhea|diarrhea.*vomiting|vomiting.*days|diarrhea.*days|dizzy.*stand.*dry|can.?t keep.*down", "Dehydration"),
  ("something.*in.*eye|foreign body.*eye|metal.*eye|dust.*eye.*painful|can.?t see.*eye", "Foreign body eye"),
  ("abscess|boil.*painful|swelling.*pus|infected.*lump|cyst.*infected|lump.*red.*hot|painful.*lump.*fever", "Abscess"),
  ("child.*asthma|child.*wheezing|kid.*breathing|toddler.*breathing", "Paediatric respiratory"),
  ("leg.*swollen.*painful|calf.*swollen|calf.*painful|calf.*red.*painful|dvt|deep vein|blood clot.*leg|long.*flight.*swollen", "DVT symptoms"),
  ("back pain.*can.?t walk|severe back pain|can.?t move.*back|acute back pain", "Severe back pain"),
  ("cellulitis|redness.*spreading|infection.*spreading|red.*hot.*swollen|red.*getting bigger|spreading up", "Cellulitis"),
  ("nose.*won.?t stop.*bleeding|nosebleed.*\\d+.*minutes|nose.*bleeding.*long time", "Epistaxis"),
  ("coughing.*blood|blood.*sputum|haemoptysis|coughed up blood", "Haemoptysis"),
  ("haven.?t.*pee|can.?t.*pee|haven.?t.*urinate|can.?t.*urinate|belly.*swollen.*painful.*pee", "Urinary retention"),
  ("chemotherapy.*fever|chemo.*temperature|immunocompromised.*fever|immune.*suppressed.*fever|cancer.*fever|transplant.*fever", "Immunocompromised fever"),
  ("might be pregnant.*cramp|pregnant.*cramp|could be pregnant.*pain|possible pregnancy.*bleeding", "Possible ectopic"),
  ("dog.*bit|bitten.*dog|bitten.*cat|animal.*bite|stray.*bit|rabies", "Animal bite"),
  ("swallowed.*coin|swallowed.*battery|child.*swallowed|toddler.*swallowed|swallowed.*object|swallowed.*magnet", "Foreign body ingestion")]

/-- `ConversationEngine.checkRedFlagKeywords(text)`. -/
def checkRedFlagKeywords (text : String) : List String :=
  let lowerText := lowerChars text
  keywordPatterns.foldl
    (fun flags p => if regexTest (compileRegex p.1) lowerText then flags ++ [p.2] else flags)
    []

/-! ## Conversation state (types.ts + the in-memory conversation-store.ts) -/

inductive Role where
  | user | assistant
deriving DecidableEq

structure ChatMessage where
  role : Role
  content : String
  timestamp : String
deriving DecidableEq

inductive ConversationStage where
  | greeting | collecting | clarifying | triaging | complete
deriving DecidableEq

/-- `CollectedData` restricted to the fields the conversation engine ever
reads or writes (`symptoms`, `duration`, `severity`, `additionalContext`);
the remaining optional fields of types.ts are never touched. -/
structure CollectedData where
  symptoms : List String
  duration : Option String := none
  severity : Option ℚ := none
  additionalContext : Option String := none
deriving DecidableEq

inductive Urgency where
  | EMERGENCY | URGENT | SEMI_URGENT | STANDARD | NON_URGENT
deriving DecidableEq

structure RedFlagEntry where
  condition : String
  evidence : String
  action : String
deriving DecidableEq

structure TriageRedFlags where
  detected : Bool
  flags : List RedFlagEntry
deriving DecidableEq

structure TriageResultData where
  severity : Int
  urgency : Urgency
  atsCategory : Nat
  maxWaitTime : String
  confidence : ℚ
  redFlags : TriageRedFlags
  specialtyMatch : List String
  reasoning : String
  recommendations : List String
deriving DecidableEq

structure DoctorSummary where
  headline : String
  keySymptoms : List String
  severity : Int
  urgency : Urgency
  atsCategory : Nat
  maxWaitTime : String
  redFlags : List String
  relevantHistory : List String
  suggestedQuestions : List String
  differentialDiagnosis : List String
  triageReasoning : String
deriving DecidableEq

/-- `TriageSession` of conversation-engine.ts. -/
structure TriageSession where
  id : String
  timestamp : String
  result : TriageResultData
  doctorSummary : DoctorSummary
deriving DecidableEq

structure Conversation where
  id : String
  stage : ConversationStage
  messages : List ChatMessage
  collectedData : CollectedData
  triageResult : Option TriageSession := none
  createdAt : String
  updatedAt : String
deriving DecidableEq

/-- `conversationStore.addMessage` (in-memory branch). -/
def addMessage (conv : Conversation) (role : Role) (content : String) (now : String) :
    Conversation :=
  { conv with
    messages := conv.messages ++ [{ role := role, content := content, timestamp := now }],
    updatedAt := now }

/-- `conversationStore.updateStage`. -/
def updateStage (conv : Conversation) (stage : ConversationStage) (now : String) :
    Conversation :=
  { conv with stage := stage, updatedAt := now }

/-- `conversationStore.updateCollectedData` (the engine always passes all four
fields, so the spread-merge replaces them wholesale). -/
def updateCollectedData (conv : Conversation) (data : CollectedData) (now : String) :
    Conversation :=
  { conv with collectedData := data, updatedAt := now }

/-- `conversationStore.setTriageResult`: stores the session **and** sets the
stage to `complete`. -/
def setTriageResult (conv : Conversation) (result : TriageSession) (now : String) :
    Conversation :=
  { conv with triageResult := some result, stage := .complete, updatedAt := now }

/-- The `ConversationResponse` record of types.ts. -/
structure ConversationResponse where
  conversationId : String
  message : String
  stage : ConversationStage
  isComplete : Bool
  triageResult : Option TriageSession := none
deriving DecidableEq

/-! ## JS truthiness helpers (`x || y`) -/

def jsOrNat (x : Option Nat) (dflt : Nat) : Nat :=
  match x with
  | some n => if n = 0 then dflt else n
  | none => dflt

def jsOrQ (x : Option ℚ) (dflt : ℚ) : ℚ :=
  match x with
  | some v => if v = 0 then dflt else v
  | none => dflt

def jsOrStr (x : Option String) (dflt : String) : String :=
  match x with
  | some s => if s = "" then dflt else s
  | none => dflt

def jsOrOptStr (x : Option String) (fallback : Option String) : Option String :=
  match x with
  | some s => if s = "" then fallback else some s
  | none => fallback

def jsOrOptQ (x : Option ℚ) (fallback : Option ℚ) : Option ℚ :=
  match x with
  | some v => if v = 0 then fallback else some v
  | none => fallback

/-- `Math.min(...xs)` over a non-empty spread (callers never pass `[]`). -/
def jsMathMin : List Nat → Nat
  | [] => 0
  | x :: xs => xs.foldl Nat.min x

/-! ## Emergency triage path (`handleEmergencyTriage`) -/

/-- The `flagActions` table: flag → (ATS category, action). -/
def flagActions : List (String × Nat × String) := [
  ("Cardiac arrest", 1, "Begin CPR, call 000, defibrillation if available"),
  ("Respiratory arrest", 1, "Secure airway, ventilation, call 000"),
  ("Possible anaphylaxis", 1, "Immediate adrenaline, airway management"),
  ("Airway obstruction", 1, "Immediate airway clearance, back blows/chest thrusts"),
  ("Chest pain", 2, "Immediate ECG and cardiac workup"),
  ("Difficulty breathing", 2, "Immediate respiratory assessment, oxygen"),
  ("Sudden severe headache", 2, "Urgent CT scan to rule out SAH"),
  ("Loss of consciousness", 2, "Neurological assessment, monitor airway"),
  ("Possible stroke symptoms", 2, "Immediate stroke protocol (CT, thrombolysis assessment)"),
  ("Seizure", 2, "Protect airway, recovery position, time seizure"),
  ("Suicidal ideation", 2, "Immediate mental health assessment, ensure safety"),
  ("Severe bleeding", 2, "Immediate haemostasis and volume resuscitation"),
  ("Altered mental status", 2, "Immediate assessment for reversible causes"),
  ("Major trauma", 2, "Trauma team activation, ABCDE assessment"),
  ("Severe burns", 2, "Cool burns, assess airway for inhalation injury"),
  ("Electrocution", 2, "Cardiac monitoring, assess for arrhythmias"),
  ("Near-drowning", 2, "Protect airway, assess for aspiration"),
  ("Drug overdose", 2, "Assess airway, naloxone if opioid suspected"),
  ("Poisoning", 2, "Contact Poisons Information Centre 13 11 26"),
  ("Collapse", 2, "Full assessment, ECG, bloods"),
  ("GI bleeding", 2, "IV access, type and cross, urgent gastro consult"),
  ("Possible meningitis", 2, "Immediate antibiotics, LP consideration"),
  ("Obstetric emergency", 2, "Urgent obstetric review, IV access, USS"),
  ("Testicular emergency", 2, "Urgent urology review, Doppler USS"),
  ("Allergic reaction", 2, "Antihistamines, steroids, observe for progression"),
  ("Febrile infant", 2, "Septic workup, IV antibiotics"),
  ("Acute vision loss", 2, "Urgent ophthalmology review"),
  ("Acute abdomen", 2, "Surgical review, CT abdomen, NBM"),
  ("Post-partum haemorrhage", 2, "Urgent obstetric review, IV fluids, uterotonics"),
  ("Compartment syndrome", 2, "Urgent orthopaedic review, compartment pressures"),
  ("Severe dehydration", 2, "IV fluids, electrolyte check, assess cause"),
  ("Immunocompromised fever", 2, "Immediate broad-spectrum antibiotics, neutropenic protocol"),
  ("Asthma exacerbation", 3, "Nebulised salbutamol, assess severity, oxygen if SpO2 <94%"),
  ("High fever", 3, "Assess source of infection, paracetamol, bloods if indicated"),
  ("Kidney stone", 3, "Analgesia, antiemetic, CT KUB if first presentation"),
  ("Possible appendicitis", 3, "Surgical review, CT abdomen, NBM"),
  ("Head injury with vomiting", 3, "CT head, neuro obs, assess for skull fracture"),
  ("Fracture or dislocation", 3, "X-ray, analgesia, splint, orthopaedic review"),
  ("Panic attack", 3, "Calm environment, reassurance, exclude cardiac cause"),
  ("Severe migraine", 3, "Analgesia, antiemetic, dark quiet room, exclude SAH"),
  ("Diabetic foot infection", 3, "Wound assessment, bloods, IV antibiotics, vascular review"),
  ("Dehydration", 3, "Oral/IV fluids, assess electrolytes, identify cause"),
  ("Foreign body eye", 3, "Slit lamp examination, topical anaesthetic, removal"),
  ("Abscess", 3, "Incision and drainage, antibiotics if cellulitis"),
  ("Paediatric respiratory", 3, "Oxygen assessment, nebulised salbutamol, parent present"),
  ("DVT symptoms", 3, "D-dimer, Doppler USS, anticoagulation if confirmed"),
  ("Severe back pain", 3, "Exclude cauda equina (bladder, saddle anaesthesia), analgesia"),
  ("Cellulitis", 3, "Mark margins, IV antibiotics, elevate limb"),
  ("Epistaxis", 3, "Anterior nasal packing, silver nitrate if visible vessel"),
  ("Haemoptysis", 3, "CXR, assess volume, bronchoscopy if significant"),
  ("Urinary retention", 3, "Catheterisation, assess for cause"),
  ("Post-operative complication", 3, "Contact surgical team, assess wound"),
  ("Possible ectopic", 3, "Urgent USS, beta-hCG, gynae review"),
  ("Animal bite", 3, "Wound assessment, tetanus, consider rabies prophylaxis"),
  ("Foreign body ingestion", 3, "X-ray, assess for battery/magnet, paediatric review")]

def flagActionEntry (flag : String) : Option (Nat × String) :=
  (flagActions.find? (fun e => e.1 == flag)).map (fun e => e.2)

/-- `flagActions[f]?.ats || 2`. -/
def flagATS (flag : String) : Nat :=
  match flagActionEntry flag with
  | some p => if p.1 = 0 then 2 else p.1
  | none => 2

/-- `flagActions[flag]?.action || 'URGENT ASSESSMENT REQUIRED'`. -/
def flagActionText (flag : String) : String :=
  match flagActionEntry flag with
  | some p => jsOrStr (some p.2) ("URGENT ASSESSMENT REQUIRED")
  | none => "URGENT ASSESSMENT REQUIRED"

/-- The `atsToUrgency` lookup object (both copies in the source agree). -/
def atsToUrgencyMap (n : Nat) : Option Urgency :=
  match n with
  | 1 => some Urgency.EMERGENCY
  | 2 => some Urgency.EMERGENCY
  | 3 => some Urgency.URGENT
  | 4 => some Urgency.SEMI_URGENT
  | 5 => some Urgency.NON_URGENT
  | _ => none

/-- `getDifferentialsForRedFlags`. -/
def getDifferentialsForRedFlags (redFlags : List String) : List String :=
  let differentials :=
    (if redFlags.contains ("Chest pain") then
      ["Acute Coronary Syndrome", "Unstable Angina", "Aortic Dissection", "Pulmonary Embolism"]
    else []) ++
    (if redFlags.contains ("Difficulty breathing") then
      ["Acute Asthma", "Pulmonary Embolism", "Pneumothorax", "Heart Failure"]
    else []) ++
    (if redFlags.contains ("Sudden severe headache") then
      ["Subarachnoid Haemorrhage", "Intracerebral Haemorrhage", "Meningitis"]
    else []) ++
    (if redFlags.contains ("Possible stroke symptoms") then
      ["Ischaemic Stroke", "Haemorrhagic Stroke", "TIA"]
    else []) ++
    (if redFlags.contains ("Possible anaphylaxis") then
      ["Anaphylaxis", "Severe Allergic Reaction", "Angioedema"]
    else [])
  if differentials.length > 0 then differentials else ["Requires clinical evaluation"]

/-- `ConversationEngine.handleEmergencyTriage`: immediate finalization on a
red-flag keyword hit; `now` stands for every `new Date().toISOString()`. -/
def handleEmergencyTriage (conv : Conversation) (userMessage : String)
    (redFlags : List String) (now : String) : ConversationResponse × Conversation :=
  let conv := updateStage conv .triaging now
  let worstATS := jsMathMin (redFlags.map flagATS)
  let atsGuideline := (ATS_GUIDELINES.find? (fun g => g.atsCategory == worstATS)).getD ⟨0, "", ""⟩
  let urgency := (atsToUrgencyMap worstATS).getD Urgency.URGENT
  let actionText :=
    if worstATS = 1 then "Call 000 immediately - this is life-threatening"
    else if worstATS = 2 then "Call 000 or go to your nearest Emergency Department immediately"
    else "Go to your nearest Emergency Department within " ++ atsGuideline.maxWaitTime
  let recommendations :=
    if worstATS = 1 then
      ["Call emergency services (000) immediately",
       "Do not drive yourself to the hospital",
       "Stay calm and remain still"]
    else if worstATS = 2 then
      ["Go to Emergency Department immediately",
       "Call 000 if symptoms worsen",
       "Have someone drive you - do not drive yourself"]
    else
      ["Seek medical attention within " ++ atsGuideline.maxWaitTime,
       "Go to Emergency Department or urgent care",
       "If symptoms worsen, call 000"]
  let urgentMessage :=
    "⚠️ **" ++ atsGuideline.name.toUpper ++ " - " ++ atsGuideline.maxWaitTime ++ "**\n\n" ++
    "I've identified symptoms that require medical attention:\n" ++
    String.intercalate "\n" (redFlags.map (fun f => "• " ++ f)) ++
    "\n\n**What you need to do:**\n1. " ++ actionText ++ "\n2. " ++
    (if worstATS ≤ 2 then "Do not drive yourself" else "Have someone drive you if possible") ++
    "\n3. Stay calm and monitor your symptoms\n" ++
    (if redFlags.contains ("Chest pain") then "4. If you have aspirin and are not allergic, take 300mg" else "") ++
    "\n\nThis assessment has been logged for the healthcare team."
  let conv := addMessage conv .assistant urgentMessage now
  let emergencyResult : TriageSession :=
    { id := conv.id, timestamp := now,
      result :=
        { severity := 6 - (worstATS : Int),
          urgency := urgency,
          atsCategory := worstATS,
          maxWaitTime := atsGuideline.maxWaitTime,
          confidence := 95/100,
          redFlags :=
            { detected := true,
              flags := redFlags.map (fun flag =>
                { condition := flag, evidence := userMessage, action := flagActionText flag }) },
          specialtyMatch := ["Emergency Medicine"],
          reasoning := "Conditions detected via deterministic keyword matching: " ++
            String.intercalate ", " redFlags ++ ". " ++ atsGuideline.name ++
            " categorization per ATS guidelines.",
          recommendations := recommendations },
      doctorSummary :=
        { headline := (if worstATS ≤ 2 then "🚨" else "⚠️") ++ " ATS " ++ toString worstATS ++
            ": " ++ redFlags.headD "" ++ " - " ++ atsGuideline.maxWaitTime,
          keySymptoms := redFlags,
          severity := 6 - (worstATS : Int),
          urgency := urgency,
          atsCategory := worstATS,
          maxWaitTime := atsGuideline.maxWaitTime,
          redFlags := redFlags,
          relevantHistory := [],
          suggestedQuestions :=
            ["What is the patient's medical history?",
             "Any current medications or allergies?",
             "Time of symptom onset?"],
          differentialDiagnosis := getDifferentialsForRedFlags redFlags,
          triageReasoning := "Deterministic red flag detection triggered immediate " ++
            atsGuideline.name ++ " categorization. " ++ String.intercalate ", " redFlags ++
            " identified in patient presentation." } }
  let conv := setTriageResult conv emergencyResult now
  ({ conversationId := conv.id, message := urgentMessage, stage := .complete,
     isComplete := true, triageResult := some emergencyResult }, conv)

/-! ## LLM-facing records of the conversation engine

`parseResponse` never throws: it always yields a message and a
`readyToTriage` flag (its fallback branch returns `readyToTriage: false`).
`ParsedResponse` is its result; the triage-prompt parse can genuinely fail,
which `Option TriageLLMData = none` represents, triggering the literal
fallback object below. -/

structure ParsedClinicalAssessment where
  symptoms : List String := []
  duration : Option String := none
  severity : Option ℚ := none
  redFlagsIdentified : Option (List String) := none
  dataGathered : Option (List String) := none
deriving DecidableEq

structure ParsedResponse where
  message : String
  clinicalAssessment : Option ParsedClinicalAssessment := none
  readyToTriage : Bool
  suggestedATS : Option Nat := none
  reasoning : Option String := none
deriving DecidableEq

/-- `(parsed.clinicalAssessment?.redFlagsIdentified?.length ?? 0)`. -/
def parsedRedFlagCount (p : ParsedResponse) : Nat :=
  match p.clinicalAssessment with
  | some ca =>
    match ca.redFlagsIdentified with
    | some l => l.length
    | none => 0
  | none => 0

structure TriageLLMData where
  atsCategory : Option Nat := none
  urgency : Option Urgency := none
  confidence : Option ℚ := none
  primaryCondition : Option String := none
  differentials : Option (List String) := none
  reasoning : Option String := none
  recommendations : Option (List String) := none
  questionsForDoctor : Option (List String) := none
deriving DecidableEq

/-- The `catch` fallback of `performTriage` when the triage LLM reply cannot
be parsed ("safe defaults"). -/
def performTriageFallbackData (minATSFromKeywords : Nat) : TriageLLMData :=
  { atsCategory := some (Nat.min 4 minATSFromKeywords),
    urgency := some Urgency.STANDARD,
    confidence := some (6/10),
    primaryCondition := some ("Requires clinical evaluation"),
    differentials := some ["Further assessment needed"],
    reasoning := some ("Unable to determine specific condition. Clinical evaluation recommended."),
    recommendations := some ["See your GP within 24 hours", "Return if symptoms worsen"],
    questionsForDoctor := some ["Detailed symptom history needed"] }

/-- `mapConditionToSpecialty` (`(condition || '').toLowerCase()` plus
`includes` checks). -/
def mapConditionToSpecialty (condition : Option String) : List String :=
  let conditionLower := lowerChars (condition.getD "")
  if listContainsSub conditionLower ("chest".data) ||
     listContainsSub conditionLower ("cardiac".data) ||
     listContainsSub conditionLower ("heart".data) then
    ["Cardiology", "Emergency Medicine"]
  else if listContainsSub conditionLower ("stroke".data) ||
     listContainsSub conditionLower ("neuro".data) ||
     listContainsSub conditionLower ("headache".data) then
    ["Neurology", "Emergency Medicine"]
  else if listContainsSub conditionLower ("breathing".data) ||
     listContainsSub conditionLower ("respiratory".data) ||
     listContainsSub conditionLower ("asthma".data) then
    ["Respiratory Medicine", "Emergency Medicine"]
  else if listContainsSub conditionLower ("mental".data) ||
     listContainsSub conditionLower ("suicid".data) ||
     listContainsSub conditionLower ("anxiety".data) then
    ["Psychiatry", "Emergency Medicine"]
  else if listContainsSub conditionLower ("abdominal".data) ||
     listContainsSub conditionLower ("stomach".data) ||
     listContainsSub conditionLower ("bowel".data) then
    ["Gastroenterology", "General Surgery"]
  else ["General Practice"]

/-- `ConversationEngine.performTriage`.  `triageOutcome` is the parse result
of the triage LLM call; `kbMatches` is `relevantConditions.length` from the
knowledge-base retrieval (the conditions themselves only shape the LLM prompt
text and this count). -/
def performTriage (conv : Conversation) (triageOutcome : Option TriageLLMData)
    (kbMatches : Nat) (minATSFromKeywords : Nat) (now : String) :
    TriageSession × Conversation :=
  let data := conv.collectedData
  let userMessages := String.intercalate " "
    ((conv.messages.filter (fun m => m.role == Role.user)).map ChatMessage.content)
  let triageData := triageOutcome.getD (performTriageFallbackData minATSFromKeywords)
  let finalATS := Nat.min (jsOrNat triageData.atsCategory 4) minATSFromKeywords
  let atsGuideline := (ATS_GUIDELINES.find? (fun g => g.atsCategory == finalATS)).getD ⟨0, "", ""⟩
  let urgency := (atsToUrgencyMap finalATS).getD Urgency.URGENT
  let session : TriageSession :=
    { id := conv.id, timestamp := now,
      result :=
        { severity := 6 - (finalATS : Int),
          urgency := urgency,
          atsCategory := finalATS,
          maxWaitTime := atsGuideline.maxWaitTime,
          confidence := jsOrQ triageData.confidence (7/10),
          redFlags :=
            { detected := decide (finalATS ≤ 2),
              flags :=
                if finalATS ≤ 2 then
                  [{ condition := jsOrStr triageData.primaryCondition ("Urgent condition"),
                     evidence := String.mk (userMessages.data.take 100),
                     action := jsOrStr (triageData.recommendations.bind List.head?)
                       ("Urgent assessment required") }]
                else [] },
          specialtyMatch := mapConditionToSpecialty triageData.primaryCondition,
          reasoning := triageData.reasoning.getD "",
          recommendations := triageData.recommendations.getD ["Consult your healthcare provider"] },
      doctorSummary :=
        { headline := "ATS " ++ toString finalATS ++ " (" ++ atsGuideline.name ++ "): " ++
            jsOrStr triageData.primaryCondition ("Assessment complete"),
          keySymptoms := if data.symptoms.length > 0 then data.symptoms
            else ["As per patient description"],
          severity := 6 - (finalATS : Int),
          urgency := urgency,
          atsCategory := finalATS,
          maxWaitTime := atsGuideline.maxWaitTime,
          redFlags := if finalATS ≤ 2 then [optStrDisplay triageData.primaryCondition] else [],
          relevantHistory := [],
          suggestedQuestions := triageData.questionsForDoctor.getD [],
          differentialDiagnosis := triageData.differentials.getD [],
          triageReasoning := optStrDisplay triageData.reasoning ++ " ATS " ++ toString finalATS ++
            " assigned based on clinical presentation and " ++
            (if kbMatches > 0 then "knowledge base match" else "general assessment") ++ "." } }
  let conv := setTriageResult conv session now
  (session, conv)

def GREETING_MESSAGE : String :=
  "Hi, I'm TriageAI, your virtual health assistant. I'm here to help understand your symptoms and guide you to the right care. What's bringing you in today?"

/-- `conversationStore.create` (in-memory branch). -/
def conversationCreate (id now : String) : Conversation :=
  { id := id, stage := .greeting, messages := [], collectedData := { symptoms := [] },
    triageResult := none, createdAt := now, updatedAt := now }

/-- `ConversationEngine.startConversation`. -/
def startConversation (id now : String) : ConversationResponse × Conversation :=
  let conv := conversationCreate id now
  let conv := addMessage conv .assistant GREETING_MESSAGE now
  let conv := updateStage conv .collecting now
  ({ conversationId := conv.id, message := GREETING_MESSAGE, stage := .collecting,
     isComplete := false, triageResult := none }, conv)

/-- `ConversationEngine.processMessage`.

The in-memory store hands back the very object it later mutates, so after
`addMessage` the local `conversation.messages` already contains the incoming
user message; `allUserMessages`, `userMessageCount` and the final
`conversation.stage` read are all taken from that mutated object, exactly as
the aliasing makes the source behave.

`parsed` is the (never-failing) parse of the conversational LLM reply and
`triageOutcome` the parse result of the triage LLM call. -/
def processMessage (conv : Conversation) (userMessage : String)
    (parsed : ParsedResponse) (triageOutcome : Option TriageLLMData)
    (kbMatches : Nat) (now : String) : ConversationResponse × Conversation :=
  if conv.stage = .complete then
    ({ conversationId := conv.id,
       message := "This assessment has already been completed. Please start a new conversation for a new assessment.",
       stage := .complete, isComplete := true, triageResult := conv.triageResult }, conv)
  else
    let conv := addMessage conv .user userMessage now
    let redFlags := checkRedFlagKeywords userMessage
    if redFlags.length > 0 then
      handleEmergencyTriage conv userMessage redFlags now
    else
      let allUserMessages := String.intercalate " "
        ((conv.messages.filter (fun m => m.role == Role.user)).map ChatMessage.content) ++
        " " ++ userMessage
      let minATS := getMinimumATSFromSymptoms allUserMessages
      let userMessageCount := (conv.messages.filter (fun m => m.role == Role.user)).length + 1
      let forceTriageAfter := 4
      let conv :=
        match parsed.clinicalAssessment with
        | some ca =>
          let currentData := conv.collectedData
          updateCollectedData conv
            { symptoms := (currentData.symptoms ++ ca.symptoms).eraseDups,
              duration := jsOrOptStr ca.duration currentData.duration,
              severity := jsOrOptQ ca.severity currentData.severity,
              additionalContext := currentData.additionalContext } now
        | none => conv
      let conv := addMessage conv .assistant parsed.message now
      let shouldTriage := parsed.readyToTriage ||
        decide (userMessageCount ≥ forceTriageAfter) ||
        decide (parsedRedFlagCount parsed > 0)
      if shouldTriage then
        let conv := updateStage conv .triaging now
        let res := performTriage conv triageOutcome kbMatches minATS now
        ({ conversationId := conv.id, message := parsed.message, stage := .complete,
           isComplete := true, triageResult := some res.1 }, res.2)
      else
        let conv := updateStage conv
          (if userMessageCount ≥ 2 then ConversationStage.clarifying
           else ConversationStage.collecting) now
        ({ conversationId := conv.id, message := parsed.message, stage := conv.stage,
           isComplete := false, triageResult := none }, conv)

/-! ## Spec-side definitions and shared concrete inputs for the theorems -/

/-- Spec §4.1 `mostUrgent(a, b)`: the more urgent (lower index) of the two
categories.  Written from the specification's words, to be compared with the
code's `enforceMinimumCategory`. -/
def specMostUrgent (a b : ATSCategory) : ATSCategory :=
  if catIdx a ≤ catIdx b then a else b

/-- "`st'` only tightens `st`": whenever the incoming minimum category is
present, the outgoing one is present and at least as urgent. -/
def FloorsLE (st' st : RuleState) : Prop :=
  ∀ c, st.2 = some c → ∃ m, st'.2 = some m ∧ catIdx m ≤ catIdx c

/-- The state's minimum category is present, with index at most `k`. -/
def SomeLE (st : RuleState) (k : Nat) : Prop :=
  ∃ m, st.2 = some m ∧ catIdx m ≤ k

/-- A conversational LLM reply that never asks to triage and reports no red
flags (used as concrete oracle output). -/
def noTriageParse : ParsedResponse :=
  { message := "Could you tell me more about your symptoms?", readyToTriage := false }

/-- Fresh conversation for Scenario A, right after `startConversation`. -/
def scenarioAStart : Conversation := (startConversation "conv-a" "t0").2

/-- Scenario A, turn 1: the crushing-chest-pain message. -/
def scenarioARun : ConversationResponse × Conversation :=
  processMessage scenarioAStart "I have crushing chest pain radiating to my left arm"
    noTriageParse none 0 "t1"

/-- Fresh conversation for the forced-progression scenario. -/
def mildStart : Conversation := (startConversation "conv-c" "t0").2

def mildTurn1 : ConversationResponse × Conversation :=
  processMessage mildStart "I have a mild headache" noTriageParse none 0 "t1"

def mildTurn2 : ConversationResponse × Conversation :=
  processMessage mildTurn1.2 "I have a mild headache" noTriageParse none 0 "t2"

def mildTurn3 : ConversationResponse × Conversation :=
  processMessage mildTurn2.2 "I have a mild headache" noTriageParse none 0 "t3"

/-- A presentation whose systolic blood pressure reading is `0`: far below
the critical threshold, yet falsy in JS. -/
def zeroBPPresentation : SymptomPresentation :=
  { chiefComplaint := "feeling faint", vitals := some { systolicBP := some 0 } }

/-- A presentation whose chief complaint fires the cardiac red flag. -/
def chestPainPresentation : SymptomPresentation := { chiefComplaint := "crushing chest pain" }

/-- The detected-flag record produced for `chestPainPresentation`. -/
def chestPainFlag : DetectedFlag :=
  { id := "cardiac_chest_pain", name := "Cardiac-type chest pain",
    evidence := "chest pain", action := "Immediate ECG and cardiac workup",
    minCategory := ATS2 }

/-- An LLM candidate proposing the least-urgent category. -/
def llmProposesATS5 : LLMTriageResponse :=
  { category := ATS5, confidence := 9/10, clinicalReasoning := "seems mild",
    discriminatorsUsed := [], recommendations := [] }

/-- A presentation with a genuinely low (and truthy) systolic BP reading. -/
def lowBPPresentation : SymptomPresentation :=
  { chiefComplaint := "feeling faint", vitals := some { systolicBP := some 70 } }

/-- A guardrails result with no floor. -/
def emptyGuardrails : GuardrailsResult :=
  { minimumCategory := none, redFlagsDetected := [], clinicalAlerts := [],
    categoryAdjustments := [], auditLog := [], requiresImmediateAttention := false,
    escalationRequired := false }

/-- A guardrails result whose floor is ATS2. -/
def ats2Guardrails : GuardrailsResult :=
  { emptyGuardrails with minimumCategory := some ATS2 }

/-! # Basic lemmas about the category model -/

lemma catIdx_le_four (c : ATSCategory) : catIdx c ≤ 4 := by
  cases c <;> simp [catIdx]

lemma catIdx_catOfIdx {n : Nat} (h : n ≤ 4) : catIdx (catOfIdx n) = n := by
  interval_cases n <;> rfl

lemma catIdx_eq_zero {c : ATSCategory} (h : catIdx c = 0) : c = ATS1 := by
  cases c <;> simp [catIdx] at h ⊢

lemma escalate_some_le (c t : ATSCategory) :
    catIdx (escalateCategory (some c) t) ≤ catIdx c := by
  revert c t; decide

lemma escalate_le_target (cur : Option ATSCategory) (t : ATSCategory) :
    catIdx (escalateCategory cur t) ≤ catIdx t := by
  revert cur t; decide

lemma enforce_le_floor (llm f : ATSCategory) :
    catIdx (enforceMinimumCategory llm (some f)) ≤ catIdx f := by
  revert llm f; decide

/-! # The keyword floor is at least as urgent as any firing flag -/

lemma foldMinIdx_le_init (l : List DetectedFlag) (init : Nat) :
    l.foldl (fun minIdx flag =>
      if catIdx flag.minCategory < minIdx then catIdx flag.minCategory else minIdx) init ≤ init := by
  induction l generalizing init with
  | nil => exact le_refl init
  | cons a l ih =>
    refine le_trans (ih _) ?_
    by_cases h : catIdx a.minCategory < init <;> simp [h] <;> omega

lemma foldMinIdx_le_mem {l : List DetectedFlag} {f : DetectedFlag} (hf : f ∈ l) (init : Nat) :
    l.foldl (fun minIdx flag =>
      if catIdx flag.minCategory < minIdx then catIdx flag.minCategory else minIdx) init ≤
      catIdx f.minCategory := by
  induction l generalizing init with
  | nil => exact absurd hf (List.not_mem_nil f)
  | cons a l ih =>
    rcases List.mem_cons.mp hf with rfl | hmem
    · refine le_trans (foldMinIdx_le_init l _) ?_
      by_cases h : catIdx f.minCategory < init <;> simp [h] <;> omega
    · exact ih hmem _

lemma getMin_le_of_mem {flags : List DetectedFlag} {f : DetectedFlag} (hf : f ∈ flags) :
    ∃ m, getMinimumCategoryFromFlags flags = some m ∧ catIdx m ≤ catIdx f.minCategory := by
  cases flags with
  | nil => exact absurd hf (List.not_mem_nil f)
  | cons a l =>
    have hle := foldMinIdx_le_mem hf 5
    have h4 : (a :: l).foldl (fun minIdx flag =>
        if catIdx flag.minCategory < minIdx then catIdx flag.minCategory else minIdx) 5 ≤ 4 :=
      le_trans hle (catIdx_le_four _)
    refine ⟨catOfIdx _, rfl, ?_⟩
    rw [catIdx_catOfIdx h4]
    exact hle

/-! # The clinical-rules layer only tightens the floor -/

lemma floorsLE_refl (st : RuleState) : FloorsLE st st :=
  fun c hc => ⟨c, hc, le_refl _⟩

lemma floorsLE_trans {st₃ st₂ st₁ : RuleState}
    (h₂ : FloorsLE st₃ st₂) (h₁ : FloorsLE st₂ st₁) : FloorsLE st₃ st₁ := by
  intro c hc
  obtain ⟨m, hm, hle⟩ := h₁ c hc
  obtain ⟨m', hm', hle'⟩ := h₂ m hm
  exact ⟨m', hm', hle'.trans hle⟩

lemma floorsLE_addAlert (a : ClinicalAlert) (st : RuleState) :
    FloorsLE (addAlert a st) st :=
  fun c hc => ⟨c, hc, le_refl _⟩

lemma floorsLE_addAlertEscalate (a : ClinicalAlert) (t : ATSCategory) (st : RuleState) :
    FloorsLE (addAlertEscalate a t st) st := by
  intro c hc
  refine ⟨escalateCategory st.2 t, rfl, ?_⟩
  rw [hc]
  exact escalate_some_le c t

lemma someLE_of_floorsLE {st' st : RuleState} {k : Nat}
    (h : FloorsLE st' st) (hs : SomeLE st k) : SomeLE st' k := by
  obtain ⟨m, hm, hk⟩ := hs
  obtain ⟨m', hm', hle⟩ := h m hm
  exact ⟨m', hm', hle.trans hk⟩

lemma someLE_addAlertEscalate (a : ClinicalAlert) (t : ATSCategory) (st : RuleState) :
    SomeLE (addAlertEscalate a t st) (catIdx t) :=
  ⟨escalateCategory st.2 t, rfl, escalate_le_target st.2 t⟩

lemma bpCheck_floors (v : Vitals) (st : RuleState) : FloorsLE (bpCheck v st) st := by
  cases hbp : v.systolicBP with
  | none => simp only [bpCheck, hbp]; exact floorsLE_refl st
  | some bp =>
    simp only [bpCheck, hbp]
    split_ifs <;> first
      | exact floorsLE_addAlertEscalate _ _ _
      | exact floorsLE_refl st

lemma spo2Check_floors (v : Vitals) (st : RuleState) : FloorsLE (spo2Check v st) st := by
  cases hs : v.spo2 with
  | none => simp only [spo2Check, hs]; exact floorsLE_refl st
  | some s =>
    simp only [spo2Check, hs]
    split_ifs <;> first
      | exact floorsLE_addAlertEscalate _ _ _
      | exact floorsLE_refl st

lemma hrHighCheck_floors (v : Vitals) (st : RuleState) : FloorsLE (hrHighCheck v st) st := by
  cases hh : v.heartRate with
  | none => simp only [hrHighCheck, hh]; exact floorsLE_refl st
  | some hr =>
    simp only [hrHighCheck, hh]
    split_ifs <;> first
      | exact floorsLE_addAlertEscalate _ _ _
      | exact floorsLE_refl st

lemma hrLowCheck_floors (v : Vitals) (st : RuleState) : FloorsLE (hrLowCheck v st) st := by
  cases hh : v.heartRate with
  | none => simp only [hrLowCheck, hh]; exact floorsLE_refl st
  | some hr =>
    simp only [hrLowCheck, hh]
    split_ifs <;> first
      | exact floorsLE_addAlertEscalate _ _ _
      | exact floorsLE_refl st

lemma feverCheck_floors (v : Vitals) (age : Option ℚ) (st : RuleState) :
    FloorsLE (feverCheck v age st) st := by
  cases ht : v.temperature with
  | none => simp only [feverCheck, ht]; exact floorsLE_refl st
  | some t =>
    simp only [feverCheck, ht]
    split_ifs <;> first
      | exact floorsLE_addAlertEscalate _ _ _
      | exact floorsLE_addAlert _ _
      | exact floorsLE_refl st

lemma checkVitals_floors (v : Vitals) (age : Option ℚ) (st : RuleState) :
    FloorsLE (checkVitals v age st) st := by
  unfold checkVitals
  exact floorsLE_trans (feverCheck_floors _ _ _)
    (floorsLE_trans (hrLowCheck_floors _ _)
      (floorsLE_trans (hrHighCheck_floors _ _)
        (floorsLE_trans (spo2Check_floors _ _) (bpCheck_floors _ _))))

lemma ageChecks_floors (demographics : Option Demographics) (vitals : Option Vitals)
    (st : RuleState) : FloorsLE (ageChecks demographics vitals st) st := by
  cases demographics with
  | none => simp only [ageChecks]; exact floorsLE_refl st
  | some d =>
    cases ha : d.age with
    | none => simp only [ageChecks, ha]; exact floorsLE_refl st
    | some a =>
      simp only [ageChecks, ha]
      split_ifs <;>
        repeat first
          | exact floorsLE_refl _
          | refine floorsLE_trans (floorsLE_addAlertEscalate _ _ _) ?_
          | refine floorsLE_trans (floorsLE_addAlert _ _) ?_

lemma floorsLE_ite (c : Prop) [Decidable c] {A B st : RuleState}
    (hA : FloorsLE A st) (hB : FloorsLE B st) : FloorsLE (if c then A else B) st := by
  by_cases h : c
  · simpa [h] using hA
  · simpa [h] using hB

lemma symptomStep_floors (st : RuleState) (s : Symptom) :
    FloorsLE (symptomStep st s) st := by
  unfold symptomStep
  cases hs : s.severity with
  | none =>
    cases ho : s.onset with
    | none => exact floorsLE_refl st
    | some o =>
      cases o with
      | sudden => exact floorsLE_addAlert _ _
      | gradual => exact floorsLE_refl st
  | some sev =>
    cases ho : s.onset with
    | none => exact floorsLE_ite _ (floorsLE_addAlertEscalate _ _ _) (floorsLE_refl st)
    | some o =>
      cases o with
      | sudden =>
        exact floorsLE_trans (floorsLE_addAlert _ _)
          (floorsLE_ite _ (floorsLE_addAlertEscalate _ _ _) (floorsLE_refl st))
      | gradual => exact floorsLE_ite _ (floorsLE_addAlertEscalate _ _ _) (floorsLE_refl st)

lemma symptomChecks_floors (symptoms : List Symptom) (st : RuleState) :
    FloorsLE (symptomChecks symptoms st) st := by
  induction symptoms generalizing st with
  | nil => exact floorsLE_refl st
  | cons s rest ih =>
    exact floorsLE_trans (ih (symptomStep st s)) (symptomStep_floors st s)

lemma runClinicalRules_min_eq (p : SymptomPresentation) (cur : Option ATSCategory)
    (ts1 ts2 : String) :
    (runClinicalRules p cur ts1 ts2).minimumCategory =
      (symptomChecks p.symptoms (ageChecks p.demographics p.vitals
        (match p.vitals with
         | some v => checkVitals v (p.demographics.bind Demographics.age) ([], cur)
         | none => ([], cur)))).2 := rfl

lemma runClinicalRules_floors (p : SymptomPresentation) (cur : Option ATSCategory)
    (ts1 ts2 : String) (c : ATSCategory) (hc : cur = some c) :
    ∃ m, (runClinicalRules p cur ts1 ts2).minimumCategory = some m ∧ catIdx m ≤ catIdx c := by
  rw [runClinicalRules_min_eq]
  have hvit : FloorsLE
      (match p.vitals with
       | some v => checkVitals v (p.demographics.bind Demographics.age) ([], cur)
       | none => ([], cur)) ([], cur) := by
    cases p.vitals with
    | none => exact floorsLE_refl _
    | some v => exact checkVitals_floors _ _ _
  have hall := floorsLE_trans (symptomChecks_floors p.symptoms _)
    (floorsLE_trans (ageChecks_floors p.demographics p.vitals _) hvit)
  exact hall c hc

/-! # Claims -/

/-- **C2**.  The safety envelope fuses exactly as specified:
`finalCategory = mostUrgent(candidate, floor)` when a floor exists,
`finalCategory = candidate` when it does not, and `wasEscalated` holds exactly
when the final category differs from the candidate. -/
theorem safety_envelope_fusion (llmCategory : ATSCategory) (floor : Option ATSCategory)
    (redFlagsDetected : List DetectedFlag) (clinicalAlerts : List ClinicalAlert)
    (ts1 ts2 : String) :
    (∀ f, floor = some f →
      (applySafetyEnvelope llmCategory floor redFlagsDetected clinicalAlerts ts1 ts2).finalCategory =
        specMostUrgent llmCategory f) ∧
    (floor = none →
      (applySafetyEnvelope llmCategory floor redFlagsDetected clinicalAlerts ts1 ts2).finalCategory =
        llmCategory) ∧
    ((applySafetyEnvelope llmCategory floor redFlagsDetected clinicalAlerts ts1 ts2).wasEscalated = true ↔
      (applySafetyEnvelope llmCategory floor redFlagsDetected clinicalAlerts ts1 ts2).finalCategory ≠
        llmCategory) := by
  refine ⟨?_, ?_, ?_⟩
  · rintro f rfl
    simp [applySafetyEnvelope, enforceMinimumCategory, specMostUrgent]
  · rintro rfl
    simp [applySafetyEnvelope, enforceMinimumCategory]
  · simp [applySafetyEnvelope, bne_iff_ne]

/-- Witness for C2 at a concrete input: candidate ATS4 against floor ATS2
fuses to ATS2 with `wasEscalated = true`. -/
theorem safety_envelope_fusion_witness :
    (applySafetyEnvelope ATS4 (some ATS2) [] [] "t1" "t2").finalCategory =
        specMostUrgent ATS4 ATS2 ∧
      (applySafetyEnvelope ATS4 (some ATS2) [] [] "t1" "t2").finalCategory = ATS2 ∧
      (applySafetyEnvelope ATS4 (some ATS2) [] [] "t1" "t2").wasEscalated = true :=
  ⟨(safety_envelope_fusion ATS4 (some ATS2) [] [] "t1" "t2").1 ATS2 rfl,
   by decide,
   ((safety_envelope_fusion ATS4 (some ATS2) [] [] "t1" "t2").2.2).mpr (by decide)⟩

/-- **C1**.  Monotonic floor through the full `assess` pipeline: whenever the
raw input text fires a red-flag indicator with minimum category `C`, the final
assessment's category is never less urgent than `C`, for every LLM outcome
(including the unparseable-fallback `none`). -/
theorem assess_respects_redflag_floor (p : SymptomPresentation)
    (llmOutcome : Option LLMTriageResponse) (ts : String) (C : ATSCategory)
    (h : ∃ f ∈ checkRedFlags (buildRawInput p) (p.demographics.bind Demographics.age),
      f.minCategory = C) :
    catIdx (assess p llmOutcome ts).category ≤ catIdx C := by
  obtain ⟨f, hf, hfc⟩ := h
  obtain ⟨m₀, hm₀, hle₀⟩ := getMin_le_of_mem hf
  have hcat : (assess p llmOutcome ts).category =
      enforceMinimumCategory
        (callLLM (preProcess (buildRawInput p) p ts ts ts ts) llmOutcome).category
        (runClinicalRules p
          (getMinimumCategoryFromFlags (checkRedFlags (buildRawInput p)
            (p.demographics.bind Demographics.age))) ts ts).minimumCategory := rfl
  obtain ⟨m₁, hm₁, hle₁⟩ := runClinicalRules_floors p _ ts ts m₀ hm₀
  rw [hcat, hm₁]
  calc catIdx (enforceMinimumCategory _ (some m₁)) ≤ catIdx m₁ := enforce_le_floor _ _
    _ ≤ catIdx m₀ := hle₁
    _ ≤ catIdx f.minCategory := hle₀
    _ = catIdx C := by rw [hfc]

/-- Witness for C1: "crushing chest pain" fires the cardiac flag (floor ATS2);
even with the LLM proposing ATS5 the assessment is ATS2. -/
theorem assess_respects_redflag_floor_witness :
    (∃ f ∈ checkRedFlags (buildRawInput chestPainPresentation)
        (chestPainPresentation.demographics.bind Demographics.age), f.minCategory = ATS2) ∧
      catIdx (assess chestPainPresentation (some llmProposesATS5) "t").category ≤ catIdx ATS2 ∧
      (assess chestPainPresentation (some llmProposesATS5) "t").category = ATS2 := by
  refine ⟨⟨chestPainFlag, by decide, rfl⟩, ?_, by decide⟩
  exact assess_respects_redflag_floor chestPainPresentation (some llmProposesATS5) "t" ATS2
    ⟨chestPainFlag, by decide, rfl⟩

/-! # C7: the threshold table, with the JS-truthiness caveat -/

lemma escalate_to_ATS1 (cur : Option ATSCategory) : escalateCategory cur ATS1 = ATS1 := by
  revert cur; decide

lemma floorsLE_preserves_ATS1 {st' st : RuleState} (h : FloorsLE st' st)
    (hs : st.2 = some ATS1) : st'.2 = some ATS1 := by
  obtain ⟨m, hm, hle⟩ := h ATS1 hs
  have hm1 : m = ATS1 := catIdx_eq_zero (Nat.le_zero.mp hle)
  rw [hm, hm1]

lemma bpCheck_critical {v : Vitals} {bp : ℚ} (hbp : v.systolicBP = some bp)
    (h0 : 0 < bp) (h80 : bp < 80) (st : RuleState) :
    (bpCheck v st).2 = some ATS1 := by
  simp only [bpCheck, hbp]
  rw [if_pos ⟨h0.ne', h80⟩]
  simp [addAlertEscalate, escalate_to_ATS1]

lemma spo2Check_tier2 {v : Vitals} {s : ℚ} (hs : v.spo2 = some s)
    (h0 : 0 < s) (h94 : s < 94) (st : RuleState) :
    SomeLE (spo2Check v st) 1 := by
  simp only [spo2Check, hs]
  by_cases h90 : s < 90
  · rw [if_pos ⟨h0.ne', h90⟩]
    exact ⟨escalateCategory st.2 ATS1, rfl, le_trans (escalate_le_target _ _) (by decide)⟩
  · rw [if_neg (fun hc => h90 hc.2), if_pos ⟨h0.ne', h94⟩]
    exact ⟨escalateCategory st.2 ATS2, rfl, escalate_le_target _ _⟩

lemma symptomStep_pain {s : Symptom} {sev : ℚ} (hs : s.severity = some sev)
    (h8 : 8 ≤ sev) (st : RuleState) : SomeLE (symptomStep st s) 2 := by
  have hcond : sev ≠ 0 ∧ sev ≥ CLINICAL_DISCRIMINATORS.pain.severeMin :=
    ⟨(lt_of_lt_of_le (by norm_num) h8).ne', h8⟩
  simp only [symptomStep, hs]
  rw [if_pos hcond]
  cases ho : s.onset with
  | none => exact ⟨escalateCategory st.2 ATS3, rfl, escalate_le_target _ _⟩
  | some o =>
    cases o with
    | sudden => exact ⟨escalateCategory st.2 ATS3, rfl, escalate_le_target _ _⟩
    | gradual => exact ⟨escalateCategory st.2 ATS3, rfl, escalate_le_target _ _⟩

lemma symptomChecks_pain {symptoms : List Symptom} {s : Symptom} (hmem : s ∈ symptoms)
    {sev : ℚ} (hs : s.severity = some sev) (h8 : 8 ≤ sev) (st : RuleState) :
    SomeLE (symptomChecks symptoms st) 2 := by
  induction symptoms generalizing st with
  | nil => exact absurd hmem (List.not_mem_nil s)
  | cons a rest ih =>
    rcases List.mem_cons.mp hmem with rfl | hmem'
    · have h1 := symptomStep_pain hs h8 st
      have h2 : FloorsLE (symptomChecks rest (symptomStep st s)) (symptomStep st s) :=
        symptomChecks_floors _ _
      simpa [symptomChecks] using someLE_of_floorsLE h2 h1
    · simpa [symptomChecks] using ih hmem' (symptomStep st a)

lemma ageChecks_infant {d : Demographics} {a : ℚ} (ha : d.age = some a) (h1 : a < 1)
    {vitals : Option Vitals} (htemp : infantFeverTemp vitals = true) (st : RuleState) :
    SomeLE (ageChecks (some d) vitals st) 2 := by
  simp only [ageChecks, ha]
  rw [if_pos ⟨h1, htemp⟩]
  exact ⟨_, rfl, escalate_le_target _ _⟩

/-- **C7** (amended).  The threshold table holds for truthy (nonzero) readings:
a systolic BP in `(0, 80)` escalates the floor to ATS1; an SpO2 in `(0, 94)`
escalates it at least to the second tier (ATS1 below 90); pain severity ≥ 8
escalates it at least to ATS3; and an infant (< 1 year) with temperature
≥ 38.0 escalates it at least to ATS3. -/
theorem clinical_thresholds_table (p : SymptomPresentation) (cur : Option ATSCategory)
    (ts1 ts2 : String) :
    (∀ v bp, p.vitals = some v → v.systolicBP = some bp → 0 < bp → bp < 80 →
      (runClinicalRules p cur ts1 ts2).minimumCategory = some ATS1) ∧
    (∀ v s, p.vitals = some v → v.spo2 = some s → 0 < s → s < 94 →
      ∃ m, (runClinicalRules p cur ts1 ts2).minimumCategory = some m ∧
        catIdx m ≤ catIdx ATS2) ∧
    (∀ s sev, s ∈ p.symptoms → s.severity = some sev → 8 ≤ sev →
      ∃ m, (runClinicalRules p cur ts1 ts2).minimumCategory = some m ∧
        catIdx m ≤ catIdx ATS3) ∧
    (∀ d a v t, p.demographics = some d → d.age = some a → a < 1 →
      p.vitals = some v → v.temperature = some t → 38 ≤ t →
      ∃ m, (runClinicalRules p cur ts1 ts2).minimumCategory = some m ∧
        catIdx m ≤ catIdx ATS3) := by
  refine ⟨?_, ?_, ?_, ?_⟩
  · intro v bp hv hbp h0 h80
    rw [runClinicalRules_min_eq, hv]
    have h1 : (bpCheck v ([], cur)).2 = some ATS1 := bpCheck_critical hbp h0 h80 _
    have h2 : (checkVitals v (p.demographics.bind Demographics.age) ([], cur)).2 = some ATS1 := by
      unfold checkVitals
      exact floorsLE_preserves_ATS1
        (floorsLE_trans (feverCheck_floors _ _ _)
          (floorsLE_trans (hrLowCheck_floors _ _)
            (floorsLE_trans (hrHighCheck_floors _ _) (spo2Check_floors _ _)))) h1
    exact floorsLE_preserves_ATS1
      (floorsLE_trans (symptomChecks_floors _ _) (ageChecks_floors _ _ _)) h2
  · intro v s hv hs h0 h94
    rw [runClinicalRules_min_eq, hv]
    have h1 : SomeLE (spo2Check v (bpCheck v ([], cur))) 1 := spo2Check_tier2 hs h0 h94 _
    have h2 : SomeLE (checkVitals v (p.demographics.bind Demographics.age) ([], cur)) 1 := by
      unfold checkVitals
      exact someLE_of_floorsLE
        (floorsLE_trans (feverCheck_floors _ _ _)
          (floorsLE_trans (hrLowCheck_floors _ _) (hrHighCheck_floors _ _))) h1
    exact someLE_of_floorsLE
      (floorsLE_trans (symptomChecks_floors _ _) (ageChecks_floors _ _ _)) h2
  · intro s sev hmem hs h8
    rw [runClinicalRules_min_eq]
    exact symptomChecks_pain hmem hs h8 _
  · intro d a v t hd ha h1 hv ht h38
    have htemp : infantFeverTemp p.vitals = true := by
      rw [hv]
      simp only [infantFeverTemp, ht]
      have ht0 : t ≠ 0 := (lt_of_lt_of_le (by norm_num) h38).ne'
      simp [ht0, h38]
    rw [runClinicalRules_min_eq]
    have h2 : SomeLE (ageChecks p.demographics p.vitals
        (match p.vitals with
         | some v => checkVitals v (p.demographics.bind Demographics.age) ([], cur)
         | none => ([], cur))) 2 := by
      rw [hd]
      exact ageChecks_infant ha h1 htemp _
    exact someLE_of_floorsLE (symptomChecks_floors _ _) h2

/-- Witness for C7 (amended): a BP of 70 escalates an empty floor to ATS1. -/
theorem clinical_thresholds_table_witness :
    (runClinicalRules lowBPPresentation none "t1" "t2").minimumCategory = some ATS1 ∧
      (0 : ℚ) < 70 ∧ (70 : ℚ) < 80 :=
  ⟨(clinical_thresholds_table lowBPPresentation none "t1" "t2").1
      { systolicBP := some 70 } 70 rfl rfl (by norm_num) (by norm_num),
   by norm_num, by norm_num⟩

/-- Counterexample to C7 as stated: a systolic BP reading of `0` is below the
critical threshold 80, yet the JS truthiness guard `vitals.systolicBP && ...`
skips the rule, so no floor is produced at all. -/
theorem clinical_thresholds_zero_bp_counterexample :
    zeroBPPresentation.vitals = some { systolicBP := some 0 } ∧
      (0 : ℚ) < 80 ∧
      (runClinicalRules zeroBPPresentation none "t1" "t2").minimumCategory = none := by
  refine ⟨rfl, by norm_num, by decide⟩

/-! # C8: determinism up to wall-clock timestamps -/

/-- **C8** (amended).  `runClinicalRules` is deterministic in everything except
the wall-clock timestamps of its audit entries: alerts, category adjustments,
the resulting minimum category, and the audit entries stripped of their
timestamp fields depend only on the presentation and incoming minimum. -/
theorem clinical_rules_deterministic (p : SymptomPresentation) (cur : Option ATSCategory)
    (ts1 ts2 ts1' ts2' : String) :
    (runClinicalRules p cur ts1 ts2).clinicalAlerts =
        (runClinicalRules p cur ts1' ts2').clinicalAlerts ∧
      (runClinicalRules p cur ts1 ts2).categoryAdjustments =
        (runClinicalRules p cur ts1' ts2').categoryAdjustments ∧
      (runClinicalRules p cur ts1 ts2).minimumCategory =
        (runClinicalRules p cur ts1' ts2').minimumCategory ∧
      (runClinicalRules p cur ts1 ts2).auditLog.map (fun e => (e.layer, e.step, e.result)) =
        (runClinicalRules p cur ts1' ts2').auditLog.map (fun e => (e.layer, e.step, e.result)) :=
  ⟨rfl, rfl, rfl, rfl⟩

/-- Counterexample to C8 as stated: two runs on identical presentation and
incoming minimum, at different wall-clock instants, do **not** produce
identical outputs — the audit-log timestamps differ. -/
theorem clinical_rules_timestamps_counterexample :
    runClinicalRules zeroBPPresentation none "2024-01-01T00:00:00Z" "2024-01-01T00:00:01Z" ≠
      runClinicalRules zeroBPPresentation none "2024-01-02T00:00:00Z" "2024-01-02T00:00:01Z" := by
  intro h
  have h' := congrArg (fun r => r.auditLog.map AuditEntry.timestamp) h
  simp only [runClinicalRules, List.map] at h'
  exact absurd h' (by decide)

/-! # C9: the knowledge-base layer never imposes a floor -/

/-- **C9**.  `getMinimumATSFromSymptoms` returns 5 on every input, and on the
conversational (non-short-circuited) path `performTriage` therefore produces
`min(LLM-proposed category, 5)` whenever the LLM proposes a truthy category. -/
theorem knowledge_base_never_escalates :
    (∀ s : String, getMinimumATSFromSymptoms s = 5) ∧
    (∀ (conv : Conversation) (td : TriageLLMData) (kb : Nat) (now s : String) (n : Nat),
      td.atsCategory = some n → n ≠ 0 →
      (performTriage conv (some td) kb (getMinimumATSFromSymptoms s) now).1.result.atsCategory =
        Nat.min n 5) := by
  refine ⟨fun _ => rfl, ?_⟩
  intro conv td kb now s n hn h0
  simp [performTriage, jsOrNat, hn, h0, getMinimumATSFromSymptoms]

/-- Witness for C9: an LLM-proposed category 3 against the constant minimum 5
yields final category `min 3 5 = 3`. -/
theorem knowledge_base_never_escalates_witness :
    getMinimumATSFromSymptoms "chest sniffles" = 5 ∧
      (performTriage mildStart (some { atsCategory := some 3 }) 0
          (getMinimumATSFromSymptoms "x") "t").1.result.atsCategory = Nat.min 3 5 ∧
      Nat.min 3 5 = 3 :=
  ⟨knowledge_base_never_escalates.1 _,
   knowledge_base_never_escalates.2 mildStart { atsCategory := some 3 } 0 "t" "x" 3 rfl
     (by decide),
   rfl⟩

/-! # C10: the paediatric fever flag is age-gated -/

lemma mem_checkRedFlagsOn {f : DetectedFlag} {inds : List RedFlagIndicator}
    {lowerText : List Char} {age : Option ℚ}
    (h : f ∈ checkRedFlagsOn inds lowerText age) :
    ∃ ind ∈ inds, f.id = ind.id ∧ agePass ind age = true := by
  induction inds with
  | nil => simp [checkRedFlagsOn] at h
  | cons flag rest ih =>
    by_cases hap : agePass flag age = true
    · simp only [checkRedFlagsOn, if_pos hap] at h
      rcases hkw : flag.keywords.find? (fun kw => listContainsSub lowerText (lowerChars kw)) with
        _ | kw
      · simp only [hkw] at h
        obtain ⟨ind, hmem, hrest⟩ := ih h
        exact ⟨ind, List.mem_cons_of_mem _ hmem, hrest⟩
      · simp only [hkw] at h
        rcases List.mem_cons.mp h with rfl | h'
        · exact ⟨flag, List.mem_cons_self _ _, rfl, hap⟩
        · obtain ⟨ind, hmem, hrest⟩ := ih h'
          exact ⟨ind, List.mem_cons_of_mem _ hmem, hrest⟩
    · simp only [checkRedFlagsOn, if_neg hap] at h
      obtain ⟨ind, hmem, hrest⟩ := ih h
      exact ⟨ind, List.mem_cons_of_mem _ hmem, hrest⟩

/-- **C10**.  When no age is supplied, or the age is at least 3, no detected
flag is the paediatric fever flag: a fever mention alone never floors through
that pattern. -/
theorem paediatric_fever_age_gate (text : String) (age : Option ℚ)
    (h : age = none ∨ ∃ a, age = some a ∧ 3 ≤ a) :
    ∀ f ∈ checkRedFlags text age, f.id ≠ "paediatric_fever" := by
  intro f hf hid
  obtain ⟨ind, hmem, hid', hap⟩ := mem_checkRedFlagsOn hf
  rw [hid] at hid'
  simp only [RED_FLAG_INDICATORS, List.mem_cons, List.not_mem_nil, or_false] at hmem
  rcases hmem with rfl | rfl | rfl | rfl | rfl | rfl | rfl | rfl | rfl | rfl
  all_goals try exact absurd hid' (by decide)
  -- the paediatric indicator itself: its age condition fails under `h`
  simp only [agePass] at hap
  rcases h with rfl | ⟨a, rfl, ha⟩
  · simp at hap
  · exact absurd (of_decide_eq_true hap) (not_lt.mpr ha)

/-- Witness for C10: with no age supplied, "I have a fever" fires nothing at
all. -/
theorem paediatric_fever_age_gate_witness :
    ((none : Option ℚ) = none ∨ ∃ a, (none : Option ℚ) = some a ∧ 3 ≤ a) ∧
      checkRedFlags "I have a fever" none = [] ∧
      (∀ f ∈ checkRedFlags "I have a fever" none, f.id ≠ "paediatric_fever") :=
  ⟨Or.inl rfl, by decide, paediatric_fever_age_gate "I have a fever" none (Or.inl rfl)⟩

/-! # C4: fallback on malformed LLM output -/

/-- **C4**.  On a malformed/unparseable LLM reply (`none` outcome): the ATS
engine's `callLLM` falls back to the deterministic floor when one exists and
to ATS4 otherwise, with fixed low confidence 0.5 and the fixed reasoning
string, never less urgent than the floor; and the conversational
`performTriage` falls back to category `min(4, floor)` (4 on the floorless
path where the keyword minimum is 5), fixed confidence 0.6 and a
"Clinical evaluation recommended" reasoning, never less urgent than the
keyword minimum.  Both fallbacks are total functions: the call cannot throw. -/
theorem llm_fallback_policy :
    (∀ g : GuardrailsResult, g.minimumCategory = none → (callLLM g none).category = ATS4) ∧
    (∀ g f, g.minimumCategory = some f → (callLLM g none).category = f) ∧
    (∀ g f, g.minimumCategory = some f → catIdx (callLLM g none).category ≤ catIdx f) ∧
    (∀ g : GuardrailsResult, (callLLM g none).confidence = 1/2 ∧
      (callLLM g none).clinicalReasoning =
        "LLM assessment unavailable. Category based on safety rules and clinical discriminators.") ∧
    (∀ (conv : Conversation) (kb : Nat) (now : String),
      (performTriage conv none kb 5 now).1.result.atsCategory = 4 ∧
      (performTriage conv none kb 5 now).1.result.confidence = 6/10 ∧
      (performTriage conv none kb 5 now).1.result.reasoning =
        "Unable to determine specific condition. Clinical evaluation recommended.") ∧
    (∀ (conv : Conversation) (kb minATS : Nat) (now : String),
      (performTriage conv none kb minATS now).1.result.atsCategory ≤ minATS) := by
  refine ⟨?_, ?_, ?_, ?_, ?_, ?_⟩
  · intro g hg
    simp [callLLM, callLLMFallback, hg]
  · intro g f hg
    simp [callLLM, callLLMFallback, hg]
  · intro g f hg
    simp [callLLM, callLLMFallback, hg]
  · intro g
    exact ⟨rfl, rfl⟩
  · intro conv kb now
    refine ⟨?_, ?_, ?_⟩
    · simp [performTriage, performTriageFallbackData, jsOrNat]
    · norm_num [performTriage, performTriageFallbackData, jsOrQ]
    · simp [performTriage, performTriageFallbackData]
  · intro conv kb minATS now
    simp only [performTriage, Option.getD_none]
    exact Nat.min_le_right _ _

/-- Witness for C4: fallback at a concrete floorless result gives ATS4, at a
concrete ATS2 floor gives ATS2, and the conversational fallback gives 4. -/
theorem llm_fallback_policy_witness :
    (callLLM emptyGuardrails none).category = ATS4 ∧
      (callLLM ats2Guardrails none).category = ATS2 ∧
      (performTriage mildStart none 0 5 "t").1.result.atsCategory = 4 :=
  ⟨llm_fallback_policy.1 emptyGuardrails rfl,
   llm_fallback_policy.2.1 ats2Guardrails ATS2 rfl,
   (llm_fallback_policy.2.2.2.2.1 mildStart 0 "t").1⟩

/-! # C6: a completed conversation is frozen -/

/-- **C6**.  Once the stage is `complete`, `processMessage` returns the fixed
already-completed response carrying the stored triage result, and the
conversation state is returned untouched.  The right-hand side mentions
neither the parsed LLM reply, the triage outcome, nor the knowledge-base
count, so no layer's output can influence it. -/
theorem completed_conversation_frozen (conv : Conversation) (userMessage : String)
    (parsed : ParsedResponse) (triageOutcome : Option TriageLLMData) (kbMatches : Nat)
    (now : String) (h : conv.stage = .complete) :
    processMessage conv userMessage parsed triageOutcome kbMatches now =
      ({ conversationId := conv.id,
         message := "This assessment has already been completed. Please start a new conversation for a new assessment.",
         stage := .complete, isComplete := true, triageResult := conv.triageResult },
       conv) := by
  unfold processMessage
  rw [if_pos h]

/-- Witness for C6: a second message after Scenario A's completed triage
returns the stored result and leaves the state untouched. -/
theorem completed_conversation_frozen_witness :
    scenarioARun.2.stage = ConversationStage.complete ∧
      processMessage scenarioARun.2 "hello again" noTriageParse none 0 "t9" =
        ({ conversationId := scenarioARun.2.id,
           message := "This assessment has already been completed. Please start a new conversation for a new assessment.",
           stage := .complete, isComplete := true,
           triageResult := scenarioARun.2.triageResult },
         scenarioARun.2) :=
  ⟨by decide,
   completed_conversation_frozen scenarioARun.2 "hello again" noTriageParse none 0 "t9"
     (by decide)⟩

/-! # C3: a red-flag message finalizes on the same turn -/

/-- **C3**.  If the stage is not `complete` and the user message matches at
least one red-flag keyword pattern, `processMessage` finalizes on this very
turn: response stage `complete`, `isComplete = true`, stored stage `complete`,
and the triage category is the most urgent (`Math.min`) of the matched flags'
categories.  The result is identical for any two LLM replies, triage outcomes
and knowledge-base counts: no LLM output is required for the category. -/
theorem redflag_message_finalizes (conv : Conversation) (userMessage : String)
    (parsed parsed' : ParsedResponse) (triageOutcome triageOutcome' : Option TriageLLMData)
    (kbMatches kbMatches' : Nat) (now : String)
    (hstage : conv.stage ≠ .complete)
    (hflag : checkRedFlagKeywords userMessage ≠ []) :
    (processMessage conv userMessage parsed triageOutcome kbMatches now).1.stage = .complete ∧
    (processMessage conv userMessage parsed triageOutcome kbMatches now).1.isComplete = true ∧
    (processMessage conv userMessage parsed triageOutcome kbMatches now).2.stage = .complete ∧
    (∃ s, (processMessage conv userMessage parsed triageOutcome kbMatches now).1.triageResult =
        some s ∧
      s.result.atsCategory = jsMathMin ((checkRedFlagKeywords userMessage).map flagATS)) ∧
    processMessage conv userMessage parsed triageOutcome kbMatches now =
      processMessage conv userMessage parsed' triageOutcome' kbMatches' now := by
  have hlen : (checkRedFlagKeywords userMessage).length > 0 := List.length_pos.mpr hflag
  simp only [processMessage]
  rw [if_neg hstage, if_neg hstage, if_pos hlen, if_pos hlen]
  exact ⟨rfl, rfl, rfl, ⟨_, rfl, rfl⟩, rfl⟩

/-- Witness for C3, Scenario A: on a fresh conversation (turn 1, zero prior
user messages) "I have crushing chest pain radiating to my left arm" fires
exactly the "Chest pain" flag, whose floor ATS2 is the final category, with
`isComplete = true`. -/
theorem redflag_message_finalizes_witness :
    scenarioAStart.stage ≠ ConversationStage.complete ∧
      checkRedFlagKeywords "I have crushing chest pain radiating to my left arm" =
        ["Chest pain"] ∧
      (scenarioAStart.messages.filter (fun x => x.role == Role.user)).length = 0 ∧
      scenarioARun.1.isComplete = true ∧
      scenarioARun.1.stage = ConversationStage.complete ∧
      (∃ s, scenarioARun.1.triageResult = some s ∧
        s.result.atsCategory =
          jsMathMin ((checkRedFlagKeywords
            "I have crushing chest pain radiating to my left arm").map flagATS)) ∧
      scenarioARun.1.triageResult.map (fun s => s.result.atsCategory) = some 2 := by
  have h := redflag_message_finalizes scenarioAStart
    "I have crushing chest pain radiating to my left arm" noTriageParse noTriageParse
    none none 0 0 "t1" (by decide) (by decide)
  exact ⟨by decide, by decide, by decide, h.2.1, h.1, h.2.2.2.1, by decide⟩

/-! # C5: forced progression (and the double-counted current turn) -/

lemma filter_user_addMessage_user (conv : Conversation) (m now : String) :
    (addMessage conv .user m now).messages.filter (fun x => x.role == Role.user) =
      conv.messages.filter (fun x => x.role == Role.user) ++
        [{ role := .user, content := m, timestamp := now }] := by
  simp [addMessage, List.filter_append]

lemma filter_user_addMessage_assistant (conv : Conversation) (m now : String) :
    (addMessage conv .assistant m now).messages.filter (fun x => x.role == Role.user) =
      conv.messages.filter (fun x => x.role == Role.user) := by
  simp [addMessage, List.filter_append]

lemma messages_updateStage (conv : Conversation) (s : ConversationStage) (now : String) :
    (updateStage conv s now).messages = conv.messages := rfl

lemma messages_updateCollectedData (conv : Conversation) (d : CollectedData) (now : String) :
    (updateCollectedData conv d now).messages = conv.messages := rfl

/-- A turn with no red-flag keywords, an LLM that neither sets `readyToTriage`
nor reports red flags, and fewer than the force threshold of user messages
(as the engine counts them: user messages including the just-appended one,
plus one) continues the dialogue: not complete, stage not `complete`, and
exactly one user message appended. -/
lemma processMessage_no_redflag_continue (conv : Conversation) (m : String)
    (p : ParsedResponse) (triageOutcome : Option TriageLLMData) (kb : Nat) (now : String)
    (hstage : conv.stage ≠ .complete) (hflag : checkRedFlagKeywords m = [])
    (hready : p.readyToTriage = false) (hrfc : parsedRedFlagCount p = 0)
    (hcount : (conv.messages.filter (fun x => x.role == Role.user)).length + 2 < 4) :
    (processMessage conv m p triageOutcome kb now).1.isComplete = false ∧
      (processMessage conv m p triageOutcome kb now).2.stage ≠ ConversationStage.complete ∧
      (processMessage conv m p triageOutcome kb now).2.messages.filter
          (fun x => x.role == Role.user) =
        conv.messages.filter (fun x => x.role == Role.user) ++
          [{ role := .user, content := m, timestamp := now }] := by
  have hlen0 : ¬ ((checkRedFlagKeywords m).length > 0) := by simp [hflag]
  have hshouldn : ¬ ((p.readyToTriage ||
      decide (((addMessage conv .user m now).messages.filter
        (fun x => x.role == Role.user)).length + 1 ≥ 4) ||
      decide (parsedRedFlagCount p > 0)) = true) := by
    rw [hready, hrfc, filter_user_addMessage_user, List.length_append]
    simp only [List.length_cons, List.length_nil, Bool.false_or, Bool.or_eq_true,
      decide_eq_true_eq, not_or]
    exact ⟨by omega, by omega⟩
  simp only [processMessage]
  rw [if_neg hstage, if_neg hlen0, if_neg hshouldn]
  cases hca : p.clinicalAssessment with
  | none =>
    dsimp only
    refine ⟨rfl, ?_, ?_⟩
    · dsimp only [updateStage]
      split_ifs <;> intro h <;> exact nomatch h
    · rw [messages_updateStage, filter_user_addMessage_assistant, filter_user_addMessage_user]
  | some ca =>
    dsimp only
    refine ⟨rfl, ?_, ?_⟩
    · dsimp only [updateStage]
      split_ifs <;> intro h <;> exact nomatch h
    · rw [messages_updateStage, filter_user_addMessage_assistant, messages_updateCollectedData,
        filter_user_addMessage_user]

/-- A turn with no red-flag keywords but at least the force threshold of user
messages (as the engine counts them) finalizes: response complete and stored
stage complete — whatever the LLM replies. -/
lemma processMessage_no_redflag_forced (conv : Conversation) (m : String)
    (p : ParsedResponse) (triageOutcome : Option TriageLLMData) (kb : Nat) (now : String)
    (hstage : conv.stage ≠ .complete) (hflag : checkRedFlagKeywords m = [])
    (hcount : (conv.messages.filter (fun x => x.role == Role.user)).length + 2 ≥ 4) :
    (processMessage conv m p triageOutcome kb now).1.isComplete = true ∧
      (processMessage conv m p triageOutcome kb now).2.stage = ConversationStage.complete := by
  have hlen0 : ¬ ((checkRedFlagKeywords m).length > 0) := by simp [hflag]
  have hge : ((addMessage conv .user m now).messages.filter
      (fun x => x.role == Role.user)).length + 1 ≥ 4 := by
    rw [filter_user_addMessage_user, List.length_append]
    simp only [List.length_cons, List.length_nil]
    omega
  have hshould : (p.readyToTriage ||
      decide (((addMessage conv .user m now).messages.filter
        (fun x => x.role == Role.user)).length + 1 ≥ 4) ||
      decide (parsedRedFlagCount p > 0)) = true := by
    rw [decide_eq_true hge]
    simp
  simp only [processMessage]
  rw [if_neg hstage, if_neg hlen0, if_pos hshould]
  cases hca : p.clinicalAssessment with
  | none => exact ⟨rfl, rfl⟩
  | some ca => exact ⟨rfl, rfl⟩

/-- **C5** (amended).  A fresh conversation given user turns that match no
red-flag pattern, with an LLM that never sets `readyToTriage` and never
reports red flags in its clinical assessment, reaches `complete` — but on the
**3rd** user turn, not the 4th: the engine counts the user messages of the
already-mutated conversation (which include the current turn) and adds one,
so the threshold of 4 is met when the third message arrives.  Turns 1 and 2
are not complete; turn 3 is, with the stored stage `complete`. -/
theorem forced_progression_third_turn (cid t0 m1 m2 m3 t1 t2 t3 : String)
    (p1 p2 p3 : ParsedResponse) (o1 o2 o3 : Option TriageLLMData) (kb1 kb2 kb3 : Nat)
    (hf1 : checkRedFlagKeywords m1 = []) (hf2 : checkRedFlagKeywords m2 = [])
    (hf3 : checkRedFlagKeywords m3 = [])
    (hr1 : p1.readyToTriage = false) (hr2 : p2.readyToTriage = false)
    (hc1 : parsedRedFlagCount p1 = 0) (hc2 : parsedRedFlagCount p2 = 0) :
    (processMessage (startConversation cid t0).2 m1 p1 o1 kb1 t1).1.isComplete = false ∧
      (processMessage
        (processMessage (startConversation cid t0).2 m1 p1 o1 kb1 t1).2
        m2 p2 o2 kb2 t2).1.isComplete = false ∧
      (processMessage
        (processMessage
          (processMessage (startConversation cid t0).2 m1 p1 o1 kb1 t1).2
          m2 p2 o2 kb2 t2).2
        m3 p3 o3 kb3 t3).1.isComplete = true ∧
      (processMessage
        (processMessage
          (processMessage (startConversation cid t0).2 m1 p1 o1 kb1 t1).2
          m2 p2 o2 kb2 t2).2
        m3 p3 o3 kb3 t3).2.stage = ConversationStage.complete := by
  have h0stage : (startConversation cid t0).2.stage ≠ ConversationStage.complete := by
    intro h
    exact nomatch h
  have h0count : ((startConversation cid t0).2.messages.filter
      (fun x => x.role == Role.user)).length = 0 := rfl
  obtain ⟨h1complete, h1stage, h1msgs⟩ :=
    processMessage_no_redflag_continue (startConversation cid t0).2 m1 p1 o1 kb1 t1
      h0stage hf1 hr1 hc1 (by rw [h0count]; omega)
  have h1count : (((processMessage (startConversation cid t0).2 m1 p1 o1 kb1 t1).2).messages.filter
      (fun x => x.role == Role.user)).length = 1 := by
    rw [h1msgs, List.length_append, h0count]
    rfl
  obtain ⟨h2complete, h2stage, h2msgs⟩ :=
    processMessage_no_redflag_continue _ m2 p2 o2 kb2 t2 h1stage hf2 hr2 hc2
      (by rw [h1count]; omega)
  have h2count : (((processMessage
      (processMessage (startConversation cid t0).2 m1 p1 o1 kb1 t1).2
      m2 p2 o2 kb2 t2).2).messages.filter (fun x => x.role == Role.user)).length = 2 := by
    rw [h2msgs, List.length_append, h1count]
    rfl
  obtain ⟨h3complete, h3stage⟩ :=
    processMessage_no_redflag_forced _ m3 p3 o3 kb3 t3 h2stage hf3 (by rw [h2count])
  exact ⟨h1complete, h2complete, h3complete, h3stage⟩

/-- Witness for C5 (amended): three "mild headache" turns against an LLM that
never sets `readyToTriage`; turns 1 and 2 continue, turn 3 completes. -/
theorem forced_progression_third_turn_witness :
    mildTurn1.1.isComplete = false ∧ mildTurn2.1.isComplete = false ∧
      mildTurn3.1.isComplete = true ∧ mildTurn3.2.stage = ConversationStage.complete :=
  forced_progression_third_turn "conv-c" "t0" "I have a mild headache" "I have a mild headache"
    "I have a mild headache" "t1" "t2" "t3" noTriageParse noTriageParse noTriageParse
    none none none 0 0 0 (by decide) (by decide) (by decide) rfl rfl rfl rfl

/-- Counterexample to C5 as stated: with no red flags and an LLM that never
sets `readyToTriage`, `isComplete` becomes true already on the **3rd** user
turn — not "exactly on the 4th" — and the stored stage is already `complete`
before any 4th message. -/
theorem forced_progression_counterexample :
    checkRedFlagKeywords "I have a mild headache" = [] ∧
      noTriageParse.readyToTriage = false ∧
      parsedRedFlagCount noTriageParse = 0 ∧
      mildTurn3.1.isComplete = true ∧
      mildTurn3.2.stage = ConversationStage.complete := by
  exact ⟨by decide, rfl, rfl, by decide, by decide⟩

end TriageAI
